import Mathlib

/-!
Verification development for the vendor-customer discovery pipeline.

This file gives a shallow embedding of the pipeline code
(`src/utils/url_validator.py`, `src/analyzers/grok_analyzer.py`,
`worker.py`, `app.py`) and proves or refutes the specified properties
about it.  Network effects (DNS resolution, HTTP probes, the external
analysis service) are modelled as explicit oracle functions; the
module-level DNS/HTTP caches are modelled as association lists threaded
through the functions; wall-clock time is an explicit natural number.
All definitions are executable so that individual claims can be checked
on concrete inputs.
-/

namespace GrokAI

/-- Result of URL validation, after `URLValidationResult` in
`url_validator.py` (the `validation_time` bookkeeping field is omitted;
it records wall-clock time and takes no part in any logic). -/
structure URLValidationResult where
  original_url : String
  is_valid : Bool
  structure_valid : Bool
  dns_valid : Bool
  http_valid : Bool
  cleaned_url : Option String
  reason : Option String
deriving DecidableEq, Repr

/-- Deny-list of placeholder domains, after `invalid_patterns` in
`_validate_url_structure`. -/
def invalidPatterns : List String :=
  ["example.com", "localhost", "test.com", "sample.com",
   "domain.com", "yourdomain.com", "mysite.com", "mydomain.com",
   "exampleurl.com", "testurl.com", "host.com", "placeholder.com"]

/-- Characters and digraphs rejected by the structure tier, after
`non_url_indicators` (the literal list is
left angle, right angle, double quote, single quote, open brace,
close brace, semicolon, backslash, double slash, double dot). -/
def nonUrlIndicators : List String :=
  ["<", ">", "\"", "\x27", "\x7b", "\x7d", ";", "\\", "//", ".."]

/-- ASCII whitespace stripped by Python `str.strip ()`. -/
def isPySpace (c : Char) : Bool :=
  c = ' ' || c = '\t' || c = '\n' || c = '\r' || c = '\x0b' || c = '\x0c'

/-- Python `str.strip ()` (ASCII whitespace model). -/
def pyStrip (s : String) : String :=
  String.mk (((s.toList.dropWhile isPySpace).reverse.dropWhile isPySpace).reverse)

/-- Removal of every occurrence of a single character, modelling the
space and tab/CR/LF removals in the validator. -/
def removeChar (c : Char) (s : String) : String :=
  String.mk (s.toList.filter (fun x => !(x = c)))

/-- Python `str.lower ()` (ASCII model). -/
def lowerStr (s : String) : String :=
  String.mk (s.toList.map Char.toLower)

/-- Drops the first `n` characters, Python `s[n:]`. -/
def dropStr (n : Nat) (s : String) : String :=
  String.mk (s.toList.drop n)

/-- Python `str.split (sep)` for a one-character separator. -/
def splitCharAux (sep : Char) : List Char → List Char → List String
  | [], acc => [String.mk acc.reverse]
  | c :: rest, acc =>
    if c = sep then String.mk acc.reverse :: splitCharAux sep rest []
    else splitCharAux sep rest (c :: acc)

/-- Python `str.split (sep)` for a one-character separator. -/
def splitChar (sep : Char) (s : String) : List String :=
  splitCharAux sep s.toList []

/-- Boolean prefix test on character lists. -/
def listIsPrefixOf : List Char → List Char → Bool
  | [], _ => true
  | _ :: _, [] => false
  | a :: as, b :: bs => a = b && listIsPrefixOf as bs

/-- Python `str.startswith`. -/
def strStartsWith (s p : String) : Bool :=
  listIsPrefixOf p.toList s.toList

/-- Boolean infix (substring) test on character lists, modelling the
Python `in` operator on strings. -/
def listHasInfix (needle : List Char) : List Char → Bool
  | [] => listIsPrefixOf needle []
  | c :: rest => listIsPrefixOf needle (c :: rest) || listHasInfix needle rest

/-- Python substring containment test for strings. -/
def strContains (hay needle : String) : Bool :=
  listHasInfix needle.toList hay.toList

/-- Strips the `http://`, `https://` and `www.` prefixes, each checked
once in this order, after the prefix loop in `_validate_url_structure`. -/
def stripUrlPrefixes (url : String) : String :=
  let u1 := if strStartsWith url ("http://") then dropStr 7 url else url
  let u2 := if strStartsWith u1 ("https://") then dropStr 8 u1 else u1
  if strStartsWith u2 ("www.") then dropStr 4 u2 else u2

/-- The `netloc` of CPython `urlparse ("https://" ++ url)`: tab, CR and
LF characters are removed, then the text up to the first slash, question
mark or hash is taken; `none` models the `ValueError` CPython raises for
an unbalanced square bracket in the netloc. -/
def urlparseNetloc (url : String) : Option String :=
  let u := removeChar '\n' (removeChar '\r' (removeChar '\t' url))
  let nl := u.toList.takeWhile (fun c => !(c = '/' || c = '?' || c = '#'))
  let hasL := nl.contains '['
  let hasR := nl.contains ']'
  if (hasL && !hasR) || (hasR && !hasL) then none else some (String.mk nl)

/-- Structure tier of URL validation, after `_validate_url_structure`. -/
def validate_url_structure (input : String) : URLValidationResult :=
  let url0 := stripUrlPrefixes (pyStrip input)
  match urlparseNetloc url0 with
  | none => ⟨input, false, false, false, false, none, some ("URL parsing failed")⟩
  | some nl =>
    let url := removeChar ' ' (lowerStr nl)
    if url ∈ invalidPatterns then
      ⟨input, false, false, false, false, none,
        some ("URL contains invalid pattern: " ++ url)⟩
    else if nonUrlIndicators.any (fun ind => strContains url ind) then
      ⟨input, false, false, false, false, none,
        some ("URL contains invalid characters")⟩
    else if url.length < 4 || !(url.toList.contains '.') then
      ⟨input, false, false, false, false, none,
        some ("URL too short or missing domain extension")⟩
    else
      let parts := splitChar '.' url
      let tld := parts.getLastD ("")
      if tld.length < 2 then
        ⟨input, false, false, false, false, none, some ("Invalid TLD: " ++ tld)⟩
      else
        let domain_part := parts.headD ("")
        if domain_part.length < 1 then
          ⟨input, false, false, false, false, none, some ("Invalid domain name")⟩
        else
          ⟨input, false, true, false, false, some url, some ("Valid structure")⟩

/-- Outcome of a DNS resolution attempt (`socket.getaddrinfo`):
success, `socket.gaierror`, or some other exception. -/
inductive DNSOutcome where
  | resolved
  | noResolve
  | dnsError (msg : String)
deriving DecidableEq, Repr

/-- Outcome of an HTTP HEAD probe (`requests.head`): a status code or
one of the exception classes distinguished by `_validate_url_http`. -/
inductive HTTPOutcome where
  | status (code : Nat)
  | connError (msg : String)
  | timedOut
  | tooManyRedirects
  | requestError (msg : String)
  | otherError (msg : String)
deriving DecidableEq, Repr

/-- The network environment: what DNS resolution and HTTP probing would
return for each host or URL.  Fixed for the duration of a run. -/
structure NetEnv where
  dns : String → DNSOutcome
  http : String → HTTPOutcome

/-- A network probe actually performed during validation. -/
inductive Probe where
  | dnsProbe (host : String)
  | httpProbe (url : String)
deriving DecidableEq, Repr

/-- A validation cache (`_dns_cache` with `_dns_cache_expiry`, likewise
for HTTP): key, cached boolean, expiry time. -/
def Cache : Type := List (String × Bool × Nat)

/-- First cached value for a key, if any. -/
def cacheLookup (k : String) : Cache → Option (Bool × Nat)
  | [] => none
  | (k', v) :: rest => if k' = k then some v else cacheLookup k rest

/-- Removal of a key, modelling `del cache[k]`. -/
def cacheErase (k : String) : Cache → Cache
  | [] => []
  | (k', v) :: rest =>
    if k' = k then cacheErase k rest else (k', v) :: cacheErase k rest

/-- Overwriting insertion, modelling `cache[k] = v`. -/
def cacheInsert (k : String) (b : Bool) (t : Nat) (c : Cache) : Cache :=
  (k, b, t) :: cacheErase k c

/-- Cache TTL used for both the DNS and the HTTP cache (one hour). -/
def cacheTTL : Nat := 3600

/-- The uncached part of the DNS tier: resolve and fill the cache.
Resolution errors other than `gaierror` are not cached. -/
def dnsResolveStep (env : NetEnv) (now : Nat) (r : URLValidationResult)
    (domain : String) (cache : Cache) :
    URLValidationResult × Cache × List Probe :=
  match env.dns domain with
  | DNSOutcome.resolved =>
    ({r with dns_valid := true},
      cacheInsert domain true (now + cacheTTL) cache, [Probe.dnsProbe domain])
  | DNSOutcome.noResolve =>
    ({r with dns_valid := false, reason := some ("Domain does not resolve")},
      cacheInsert domain false (now + cacheTTL) cache, [Probe.dnsProbe domain])
  | DNSOutcome.dnsError e =>
    ({r with dns_valid := false, reason := some ("DNS error: " ++ e)},
      cache, [Probe.dnsProbe domain])

/-- DNS tier, after `_validate_url_dns`: consult the cache (dropping an
expired entry), otherwise resolve. -/
def validate_url_dns (env : NetEnv) (now : Nat) (r : URLValidationResult)
    (cache : Cache) : URLValidationResult × Cache × List Probe :=
  if r.structure_valid = false then
    ({r with
        dns_valid := false
        reason := if r.reason = none then some ("Invalid URL structure") else r.reason},
      cache, [])
  else
    let domain := r.cleaned_url.getD ("")
    match cacheLookup domain cache with
    | some (b, expiry) =>
      if now < expiry then
        ({r with
            dns_valid := b
            reason := if b = false then some ("Domain does not resolve (cached result)") else r.reason},
          cache, [])
      else dnsResolveStep env now r domain (cacheErase domain cache)
    | none => dnsResolveStep env now r domain cache

/-- The uncached part of the HTTP tier: probe and fill the cache.
Unexpected exceptions are not cached. -/
def httpProbeStep (env : NetEnv) (now : Nat) (r : URLValidationResult)
    (url : String) (cache : Cache) :
    URLValidationResult × Cache × List Probe :=
  match env.http url with
  | HTTPOutcome.status code =>
    let ok := decide (200 ≤ code ∧ code < 400)
    ({r with
        http_valid := ok
        reason := if ok then r.reason else some ("HTTP status code: " ++ toString code)},
      cacheInsert url ok (now + cacheTTL) cache, [Probe.httpProbe url])
  | HTTPOutcome.connError e =>
    ({r with
        http_valid := false
        reason := if strContains e ("NameResolutionError") then
            some ("DNS resolution failed during HTTP request")
          else some ("Connection error: " ++ e)},
      cacheInsert url false (now + cacheTTL) cache, [Probe.httpProbe url])
  | HTTPOutcome.timedOut =>
    ({r with http_valid := false, reason := some ("Request timed out after 2s")},
      cacheInsert url false (now + cacheTTL) cache, [Probe.httpProbe url])
  | HTTPOutcome.tooManyRedirects =>
    ({r with http_valid := false, reason := some ("Too many redirects")},
      cacheInsert url false (now + cacheTTL) cache, [Probe.httpProbe url])
  | HTTPOutcome.requestError e =>
    ({r with http_valid := false, reason := some ("Request error: " ++ e)},
      cacheInsert url false (now + cacheTTL) cache, [Probe.httpProbe url])
  | HTTPOutcome.otherError e =>
    ({r with http_valid := false, reason := some ("Unexpected error: " ++ e)},
      cache, [Probe.httpProbe url])

/-- HTTP tier, after `_validate_url_http` with its default two-second
timeout: consult the cache (dropping an expired entry), else probe. -/
def validate_url_http (env : NetEnv) (now : Nat) (r : URLValidationResult)
    (cache : Cache) : URLValidationResult × Cache × List Probe :=
  if r.structure_valid = false then
    ({r with http_valid := false}, cache, [])
  else
    let url := "https://" ++ r.cleaned_url.getD ("")
    match cacheLookup url cache with
    | some (b, expiry) =>
      if now < expiry then
        ({r with
            http_valid := b
            reason := if b = false then some ("HTTP validation failed (cached result)") else r.reason},
          cache, [])
      else httpProbeStep env now r url (cacheErase url cache)
    | none => httpProbeStep env now r url cache

/-- The conditional `if validate_dns:` DNS phase of `validate_url`. -/
def dnsPhase (env : NetEnv) (now : Nat) (vd : Bool) (r0 : URLValidationResult)
    (dnsC : Cache) : URLValidationResult × Cache × List Probe :=
  if vd then validate_url_dns env now r0 dnsC else (r0, dnsC, [])

/-- The conditional `if validate_http:` HTTP phase of `validate_url`. -/
def httpPhase (env : NetEnv) (now : Nat) (vh : Bool) (r1 : URLValidationResult)
    (httpC : Cache) : URLValidationResult × Cache × List Probe :=
  if vh then validate_url_http env now r1 httpC else (r1, httpC, [])

/-- The closing overall-validity computation of `validate_url`:
`is_valid` is the conjunction of exactly the requested tiers. -/
def finalizeValidity (vd vh : Bool) (r : URLValidationResult) : URLValidationResult :=
  {r with is_valid :=
    r.structure_valid
      && (if vd then r.dns_valid else true)
      && (if vh then r.http_valid else true)}

/-- Top-level URL validation, after `validate_url` in
`url_validator.py`.  Returns the result, the updated DNS and HTTP
caches, and the list of network probes performed. -/
def validate_url (env : NetEnv) (now : Nat) (url : String)
    (validate_dns validate_http clean_only : Bool)
    (dnsC httpC : Cache) :
    URLValidationResult × Cache × Cache × List Probe :=
  if url = "" then
    (⟨url, false, false, false, false, none, some ("Empty URL")⟩, dnsC, httpC, [])
  else
    let r0 := validate_url_structure url
    if clean_only then ({r0 with is_valid := true}, dnsC, httpC, [])
    else if r0.structure_valid = false then (r0, dnsC, httpC, [])
    else
      let d := dnsPhase env now validate_dns r0 dnsC
      if validate_dns && !d.1.dns_valid then (d.1, d.2.1, httpC, d.2.2)
      else
        let h := httpPhase env now validate_http d.1 httpC
        (finalizeValidity validate_dns validate_http h.1, d.2.1, h.2.1, d.2.2 ++ h.2.2)

/-- Validation with both network tiers off performs no network work and
touches no cache; this pure core is what callers that pass
`validate_dns=False, validate_http=False` observe. -/
def validateUrlPure (url : String) : URLValidationResult :=
  if url = "" then ⟨url, false, false, false, false, none, some ("Empty URL")⟩
  else
    let r0 := validate_url_structure url
    if r0.structure_valid = false then r0
    else {r0 with is_valid := r0.structure_valid}

/-- A raw candidate record as produced by the source scrapers: a Python
dict with optional `name`, `url`, `source` and `confidence` keys. -/
structure DataItem where
  name : Option String
  url : Option String
  source : Option String
  confidence : Option Rat
deriving DecidableEq, Repr

/-- The validation triple attached to emitted records. -/
structure ValidationTriple where
  structure_valid : Bool
  dns_valid : Bool
  http_valid : Bool
deriving DecidableEq, Repr

/-- A result record sent to the frontend: a Python dict with
`competitor`, `customer_name`, `customer_url` and, depending on the
code path, `confidence`, `reason`, `validation` and `source` keys. -/
structure ResultRecord where
  competitor : String
  customer_name : String
  customer_url : String
  confidence : Option Rat
  reason : Option String
  validation : Option ValidationTriple
  source : Option String
deriving DecidableEq, Repr

/-- URL synthesised from a name: the lower-cased name with spaces
removed, suffixed with dot-com. -/
def synthUrl (name : String) : String :=
  removeChar ' ' (lowerStr name) ++ (".com")

/-- Python truthiness of an optional string (`None` and the empty
string are falsy). -/
def strFalsy (s : Option String) : Bool :=
  match s with
  | none => true
  | some v => v = ""

/-- The merge loop of `process_vendor` in `worker.py` (one source list):
each item whose lower-cased name is not yet in `existing_names` is
appended to the combined list and its name added to the set. -/
def addNonDupItems : List DataItem × List String → List DataItem → List DataItem × List String
  | st, [] => st
  | st, item :: rest =>
    let n := lowerStr (item.name.getD (""))
    if n ∈ st.2 then addNonDupItems st rest
    else addNonDupItems (st.1 ++ [item], n :: st.2) rest

/-- Cross-source combination in `process_vendor` (`worker.py` lines
374-418): the vendor-site list is copied wholesale, its lower-cased
names seed `existing_names`, then each further source list is merged
with `addNonDupItems`. -/
def combineData (vendorData : List DataItem) (sources : List (List DataItem)) : List DataItem :=
  (sources.foldl addNonDupItems
    (vendorData, vendorData.map (fun i => lowerStr (i.name.getD (""))))).1

/-- The final formatting loop of `process_vendor` (`worker.py` lines
421-435): items without a truthy `url` are skipped, all other items are
emitted with no URL validation and no self-exclusion. -/
def formatResultsWorker (vendor : String) (combined : List DataItem) : List ResultRecord :=
  combined.filterMap (fun item =>
    if strFalsy item.url then none
    else some ⟨vendor, item.name.getD ("Unknown"), item.url.getD (""),
      none, none, none, none⟩)

/-- Result assembly of `process_vendor`: combine all sources, format,
then truncate to `max_results` (`worker.py` lines 437-440). -/
def processVendorResults (vendor : String) (vendorData : List DataItem)
    (sources : List (List DataItem)) (maxResults : Nat) : List ResultRecord :=
  let fr := formatResultsWorker vendor (combineData vendorData sources)
  if maxResults < fr.length then fr.take maxResults else fr

/-- The customer data kept per name by `process_data_without_grok`. -/
structure KeptCustomer where
  url : String
  validation : ValidationTriple
deriving DecidableEq, Repr

/-- Python dict assignment `d[k] = v`: overwrites in place if the key
exists (keeping its original position), appends otherwise. -/
def updAssoc (k : String) (v : KeptCustomer) : List (String × KeptCustomer) → List (String × KeptCustomer)
  | [] => [(k, v)]
  | (k', v') :: rest =>
    if k' = k then (k, v) :: rest else (k', v') :: updAssoc k v rest

/-- The accumulation loop of `process_data_without_grok`
(`grok_analyzer.py` lines 598-630): items without a truthy name are
skipped, items whose lower-cased name equals the lower-cased vendor
name are skipped, the URL is taken or synthesised, structure-validated,
and on success stored under the raw (exact, case-sensitive) name,
overwriting any previous entry for that name. -/
def pdwgLoop (vendor : String) : List DataItem → List (String × KeptCustomer) → List (String × KeptCustomer)
  | [], dict => dict
  | item :: rest, dict =>
    if strFalsy item.name then pdwgLoop vendor rest dict
    else
      let name := item.name.getD ("")
      if lowerStr name = lowerStr vendor then pdwgLoop vendor rest dict
      else
        let url := if strFalsy item.url then synthUrl name else item.url.getD ("")
        if url = "" then pdwgLoop vendor rest dict
        else
          let vr := validateUrlPure url
          if vr.structure_valid then
            pdwgLoop vendor rest (updAssoc name
              ⟨vr.cleaned_url.getD (""), ⟨vr.structure_valid, vr.dns_valid, vr.http_valid⟩⟩ dict)
          else pdwgLoop vendor rest dict

/-- The Grok-free fallback path `process_data_without_grok`: dedup by
raw name (last record wins), format, truncate to `max_results`. -/
def process_data_without_grok (data : List DataItem) (vendor : String)
    (maxResults : Nat) : List ResultRecord :=
  let uniq := pdwgLoop vendor data []
  let results := uniq.map (fun p =>
    (⟨vendor, p.1, p.2.url, none, none, some p.2.validation, none⟩ : ResultRecord))
  if maxResults < results.length then results.take maxResults else results

/-- The partial-result construction of `analyze_with_grok`
(`grok_analyzer.py` lines 53-91): per item the (stripped) name and the
given or synthesised URL are taken; structure-valid URLs whose name is
non-empty and differs (case-insensitively) from the vendor name are
appended unless a record with the same lower-cased `customer_name` is
already present. -/
def partialLoop (vendor : String) : List DataItem → List ResultRecord → List ResultRecord
  | [], acc => acc
  | item :: rest, acc =>
    let name := pyStrip (item.name.getD (""))
    let url0 := item.url.getD ("")
    let url := if url0 = "" ∧ name ≠ "" ∧ lowerStr name ≠ lowerStr vendor
      then synthUrl name else url0
    if url = "" then partialLoop vendor rest acc
    else
      let vr := validateUrlPure url
      if vr.structure_valid then
        let acc1 :=
          if name ≠ "" ∧ lowerStr name ≠ lowerStr vendor then
            if acc.any (fun p => lowerStr p.customer_name = lowerStr name) then acc
            else acc ++ [(⟨vendor, name, vr.cleaned_url.getD (""), none, none,
              some ⟨vr.structure_valid, vr.dns_valid, vr.http_valid⟩, none⟩ : ResultRecord)]
          else acc
        partialLoop vendor rest acc1
      else partialLoop vendor rest acc

/-- The locally computed partial result set of `analyze_with_grok`. -/
def analyzePartialResults (data : List DataItem) (vendor : String) : List ResultRecord :=
  partialLoop vendor data []

/-- A company entry of the JSON response parsed by
`parse_grok_response`: a dict with optional `company_name`, `url`,
`confidence` and `reason` keys. -/
structure GrokCompany where
  company_name : Option String
  url : Option String
  confidence : Option Rat
  reason : Option String
deriving DecidableEq, Repr

/-- Python `str.find (c)`: index of the first occurrence or `-1`. -/
def pyFind (text : String) (c : Char) : Int :=
  match text.toList.findIdx? (fun x => x = c) with
  | some i => (i : Int)
  | none => -1

/-- Python `str.rfind (c)`: index of the last occurrence or `-1`. -/
def pyRFind (text : String) (c : Char) : Int :=
  match text.toList.reverse.findIdx? (fun x => x = c) with
  | some i => (text.length : Int) - 1 - (i : Int)
  | none => -1

/-- Python slice `text[a:b]` for the non-negative indices used here. -/
def pySlice (text : String) (a b : Int) : String :=
  String.mk ((text.toList.drop a.toNat).take (b - a).toNat)

/-- Python `line.split (',', 1)`: the part before the first comma and,
when a comma exists, the remainder. -/
def splitFirstComma (s : String) : String × Option String :=
  match s.toList.findIdx? (fun c => c = ',') with
  | none => (s, none)
  | some i => (String.mk (s.toList.take i), some (String.mk (s.toList.drop (i + 1))))

/-- Insertion into a descending-by-confidence list, before the first
entry of lower-or-equal confidence (preserving original order among
equal confidences). -/
def insertByConfDesc (r : ResultRecord) : List ResultRecord → List ResultRecord
  | [] => [r]
  | x :: xs =>
    if (x.confidence.getD 0) ≤ (r.confidence.getD 0) then r :: x :: xs
    else x :: insertByConfDesc r xs

/-- Stable descending sort by confidence, modelling
`sorted (..., key=confidence, reverse=True)`. -/
def sortByConfDesc : List ResultRecord → List ResultRecord
  | [] => []
  | x :: xs => insertByConfDesc x (sortByConfDesc xs)

/-- The JSON branch body of `parse_grok_response` (`grok_analyzer.py`
lines 462-495): entries with a `company_name` and confidence at least
0.6 (default 0.7) get their given or synthesised URL
structure-validated and, on success, are collected with their
confidence, reason and validation triple. -/
def grokJsonResults (vendor : String) (companies : List GrokCompany) : List ResultRecord :=
  companies.foldl (fun acc c =>
    match c.company_name with
    | none => acc
    | some name =>
      let confidence := c.confidence.getD (7 / 10)
      if (6 / 10 : Rat) ≤ confidence then
        let url := if strFalsy c.url then synthUrl name else c.url.getD ("")
        if url = "" then acc
        else
          let vr := validateUrlPure url
          if vr.structure_valid then
            acc ++ [(⟨vendor, name, vr.cleaned_url.getD (""), some confidence,
              some (c.reason.getD ("Extracted by Grok")),
              some ⟨vr.structure_valid, vr.dns_valid, vr.http_valid⟩, none⟩ : ResultRecord)]
          else acc
      else acc) []

/-- The line-by-line branch of `parse_grok_response` (`grok_analyzer.py`
lines 531-567): blank lines, `#` comments and `no_companies_found`
markers are skipped; each other line is split at its first comma into a
name (and optional URL, else synthesised); structure-valid URLs are
appended; the loop breaks once `max_results` records are accumulated. -/
def parseLines (vendor : String) (maxResults : Nat) : List String → List ResultRecord → List ResultRecord
  | [], acc => acc
  | line :: rest, acc =>
    let l := pyStrip line
    if l = "" ∨ strStartsWith l ("#") ∨ lowerStr l = ("no_companies_found") then
      parseLines vendor maxResults rest acc
    else
      let parts := splitFirstComma l
      let customer_name := pyStrip parts.1
      let url := match parts.2 with
        | some u => pyStrip u
        | none => synthUrl customer_name
      let acc1 :=
        if url = "" then acc
        else
          let vr := validateUrlPure url
          if vr.structure_valid then
            acc ++ [(⟨vendor, customer_name, vr.cleaned_url.getD (""), none, none,
              some ⟨vr.structure_valid, vr.dns_valid, vr.http_valid⟩, none⟩ : ResultRecord)]
          else acc
      if maxResults ≤ acc1.length then acc1
      else parseLines vendor maxResults rest acc1

/-- Response parsing, after `parse_grok_response`: first the JSON
attempt (bracket-delimited
substring handed to `json.loads`, modelled by the `jsonLoads`
parameter, `none` standing for a parse exception); when it produces a
non-empty result list, that list is sorted by descending confidence and
truncated; on any failure or an empty JSON result the line-by-line
branch runs, after checking for the `NO_COMPANIES_FOUND` marker. -/
def parse_grok_response (jsonLoads : String → Option (List GrokCompany))
    (text vendor : String) (maxResults : Nat) : List ResultRecord :=
  let js := pyFind text '['
  let je := pyRFind text ']' + 1
  let jsonAttempt : Option (List ResultRecord) :=
    if 0 ≤ js ∧ js < je then
      match jsonLoads (pySlice text js je) with
      | none => none
      | some companies =>
        let all_results := grokJsonResults vendor companies
        if all_results.isEmpty then none
        else some ((sortByConfDesc all_results).take maxResults)
    else none
  match jsonAttempt with
  | some r => r
  | none =>
    let lines := splitChar '\n' (pyStrip text)
    if lines.any (fun l => pyStrip l = ("NO_COMPANIES_FOUND")) then []
    else parseLines vendor maxResults lines []

/-- Outcome of one attempt to call the external analysis service. -/
inductive AttemptOutcome where
  | success (status : Nat) (body : String)
  | timeout
  | transportError (msg : String)
deriving DecidableEq, Repr

/-- How the retry loop of `analyze_with_grok` ended: with a response
held in the `response` variable, or by returning the fallback. -/
inductive RetryDisp where
  | response (status : Nat) (body : String)
  | fallback
deriving DecidableEq, Repr

/-- The retry loop of `analyze_with_grok` (`grok_analyzer.py` lines
306-360), driven by the list of remaining retry indices
(`for retry in range (max_retries)` with `max_retries = 3`,
`initial_timeout = 40`, `current_timeout = initial_timeout * (retry + 1)`).
Returns the trace of attempts made (retry index, timeout used) and the
disposition: a 200 response breaks out of the loop; a non-200 response
or a timeout retries unless this was the last attempt, in which case
the fallback is returned; a non-timeout transport error returns the
fallback immediately. -/
def grokRetryLoop (oracle : Nat → AttemptOutcome) : List Nat → List (Nat × Nat) × RetryDisp
  | [] => ([], RetryDisp.fallback)
  | retry :: rest =>
    let t := 40 * (retry + 1)
    match oracle retry with
    | AttemptOutcome.success s body =>
      if s = 200 then ([(retry, t)], RetryDisp.response s body)
      else if retry = 3 - 1 then ([(retry, t)], RetryDisp.fallback)
      else
        let next := grokRetryLoop oracle rest
        ((retry, t) :: next.1, next.2)
    | AttemptOutcome.timeout =>
      if retry = 3 - 1 then ([(retry, t)], RetryDisp.fallback)
      else
        let next := grokRetryLoop oracle rest
        ((retry, t) :: next.1, next.2)
    | AttemptOutcome.transportError _ => ([(retry, t)], RetryDisp.fallback)

/-- The full three-attempt retry ladder. -/
def grokCall (oracle : Nat → AttemptOutcome) : List (Nat × Nat) × RetryDisp :=
  grokRetryLoop oracle [0, 1, 2]

/-- Return value of `analyze_with_grok`, modelled over the network
oracle for the analysis service and a `jsonLoads` oracle for
`json.loads`.  A missing or empty `GROK_API_KEY` goes directly to
`process_data_without_grok` (with the default `max_results = 20`, as in
the source); a fallback disposition of the retry ladder, or a final
non-200 response, goes to `process_data_without_grok` with the caller
`max_results`; a 200 response is parsed by `parse_grok_response`. -/
def analyzeWithGrok (jsonLoads : String → Option (List GrokCompany))
    (apiKey : Option String) (oracle : Nat → AttemptOutcome)
    (data : List DataItem) (vendor : String) (maxResults : Nat) : List ResultRecord :=
  if strFalsy apiKey then process_data_without_grok data vendor 20
  else
    match (grokCall oracle).2 with
    | RetryDisp.fallback => process_data_without_grok data vendor maxResults
    | RetryDisp.response s body =>
      if s ≠ 200 then process_data_without_grok data vendor maxResults
      else parse_grok_response jsonLoads body vendor maxResults

/-- A job progress record: `{'step': ..., 'message': ...}`. -/
structure Progress where
  step : Nat
  message : String
deriving DecidableEq, Repr

/-- The vendor-site metrics dict consumed by `vendor_site_callback`
(fields default to their falsy values as under `dict.get`). -/
structure SiteMetrics where
  status : String
  pages_checked : Nat
  customer_links_found : Nat
  unique_customer_pages : Nat
  generated_domain : String
  current_url : String
  content_bytes : Nat
  failure_reason : String
deriving DecidableEq, Repr

/-- The progress record written by `vendor_site_callback` (`worker.py`
lines 92-118): a status-dependent message, and a step of
`min (40, 10 + customer_links_found * 2)`. -/
def vendorSiteCallbackProgress (vendor : String) (m : SiteMetrics) : Progress :=
  let message :=
    if m.status = ("vendor_site_started") then ("Starting vendor site analysis...")
    else if m.status = ("vendor_site_domain_generated") then
      ("Generated domain for ") ++ vendor ++ (": ") ++ m.generated_domain
    else if m.status = ("vendor_site_requesting") then
      ("Accessing vendor website: ") ++ m.current_url
    else if m.status = ("vendor_site_loaded") then
      ("Successfully loaded vendor website (") ++ toString m.content_bytes ++ (" bytes)")
    else if m.status = ("vendor_site_parsing") then ("Parsing vendor website content...")
    else if m.status = ("vendor_site_searching_links") then
      ("Searching for customer pages... Found ")
        ++ toString m.customer_links_found ++ (" links")
    else if m.status = ("vendor_site_customer_pages_found") then
      ("Found ") ++ toString m.unique_customer_pages ++ (" unique customer pages")
    else if m.status = ("failed") then ("Error: ") ++ m.failure_reason
    else ("Processing vendor site...")
  ⟨min 40 (10 + m.customer_links_found * 2), message⟩

/-- The job progress update performed by `vendor_site_callback`
(`worker.py` lines 113-118): the computed progress replaces the
current one UNCONDITIONALLY, with no monotonicity guard. -/
def vendorSiteCallbackUpdate (_cur : Progress) (vendor : String) (m : SiteMetrics) : Progress :=
  vendorSiteCallbackProgress vendor m

/-- The enhanced-search metrics dict consumed by
`enhanced_search_callback`; `companies_found` and `target_count` are
optional keys, the remaining fields default as under `dict.get`. -/
structure SearchMetrics where
  status : String
  companies_found : Option Nat
  target_count : Option Nat
  current_customer_page_index : Nat
  total_customer_pages : Nat
  current_page : String
  error_message : Option String
deriving DecidableEq, Repr

/-- The progress step computed by `enhanced_search_callback`
(`worker.py` lines 183-191): 40 by default, 60 on completion or error,
else `40 + int (min (1.0, companies / target) * 20)` when both counters
are present and the target positive (the float multiplication is
modelled by exact rational arithmetic, `(c * 20) / t` in naturals). -/
def enhancedSearchProgressStep (m : SearchMetrics) : Nat :=
  if m.status = ("complete") then 60
  else if strStartsWith m.status ("error") then 60
  else match m.companies_found, m.target_count with
    | some c, some t =>
      if 0 < t then 40 + (if t ≤ c then 20 else (c * 20) / t) else 40
    | _, _ => 40

/-- The status message computed by `enhanced_search_callback`
(`worker.py` lines 160-181). -/
def enhancedSearchMessage (vendor : String) (m : SearchMetrics) : String :=
  if m.status = ("generating_domain") then ("Generating domain for ") ++ vendor ++ ("...")
  else if m.status = ("accessing_vendor_site") then
    ("Accessing website for ") ++ vendor ++ ("...")
  else if m.status = ("finding_customer_pages") then ("Searching for customer pages...")
  else if m.status = ("analyzing_main_page") then ("Analyzing main page content...")
  else if m.status = ("analyzing_customer_pages") then
    ("Analyzing customer page ") ++ toString m.current_customer_page_index
      ++ ("/") ++ toString m.total_customer_pages ++ ("...")
  else if m.status = ("analyzing_page_content") then
    ("Processing content from ") ++ m.current_page ++ ("...")
  else if m.status = ("processing_results") then
    ("Processing results... Found ") ++ toString ((m.companies_found).getD 0)
      ++ (" companies so far")
  else if m.status = ("complete") then
    ("Enhanced search complete! Found ") ++ toString ((m.companies_found).getD 0)
      ++ (" companies.")
  else if m.status = ("error") ∨ strStartsWith m.status ("error") then
    ("Error: ") ++ (m.error_message.getD ("Unknown error occurred"))
  else ("Processing...")

/-- The job progress update performed by `enhanced_search_callback`
(`worker.py` lines 193-199): the progress is replaced only when the
newly computed step strictly exceeds the current one
(the `Do not decrease progress` guard). -/
def enhancedSearchCallbackUpdate (cur : Progress) (vendor : String) (m : SearchMetrics) : Progress :=
  let step := enhancedSearchProgressStep m
  if cur.step < step then ⟨step, enhancedSearchMessage vendor m⟩ else cur

/-- The final formatting loop of `background_worker` in `app.py`
(lines 871-905): items with a truthy URL are structure-validated
(network tiers off); on success the URL is re-validated with the DNS
tier (threading the shared DNS cache), and only records whose
`dns_valid` holds are emitted, carrying the DNS-validation triple and
the cleaned URL. -/
def appFormatLoop (env : NetEnv) (now : Nat) (vendor : String) :
    List DataItem → Cache → Cache → List ResultRecord → List ResultRecord × Cache × Cache
  | [], dc, hc, acc => (acc, dc, hc)
  | item :: rest, dc, hc, acc =>
    if strFalsy item.url then appFormatLoop env now vendor rest dc hc acc
    else
      let url := item.url.getD ("")
      let s := validateUrlPure url
      if s.structure_valid then
        let d := validate_url env now url true false false dc hc
        if d.1.dns_valid then
          appFormatLoop env now vendor rest d.2.1 d.2.2.1
            (acc ++ [(⟨vendor, item.name.getD ("Unknown"), d.1.cleaned_url.getD (""), none, none,
              some ⟨d.1.structure_valid, d.1.dns_valid, d.1.http_valid⟩, none⟩ : ResultRecord)])
        else appFormatLoop env now vendor rest d.2.1 d.2.2.1 acc
      else appFormatLoop env now vendor rest dc hc acc

/-- The records emitted by the `app.py` final formatting step. -/
def appFormatResults (env : NetEnv) (now : Nat) (vendor : String)
    (combined : List DataItem) (dc hc : Cache) : List ResultRecord × Cache × Cache :=
  appFormatLoop env now vendor combined dc hc []


/-- The pure core `validateUrlPure` agrees with `validate_url` called
with both network tiers off, for every environment and cache state. -/
theorem validateUrlPure_eq (env : NetEnv) (now : Nat) (url : String)
    (dnsC httpC : Cache) :
    validate_url env now url false false false dnsC httpC
      = (validateUrlPure url, dnsC, httpC, []) := by
  unfold validate_url validateUrlPure
  by_cases h : url = "" <;> simp [h]
  by_cases hs : (validate_url_structure url).structure_valid = false
  · simp [hs]
  · have hs' : (validate_url_structure url).structure_valid = true := by
      revert hs
      cases (validate_url_structure url).structure_valid <;> simp
    simp [hs, hs', dnsPhase, httpPhase, finalizeValidity]

theorem validate_url_structure_dns (input : String) :
    (validate_url_structure input).dns_valid = false := by
  unfold validate_url_structure
  dsimp only
  rcases h : urlparseNetloc (stripUrlPrefixes (pyStrip input)) with _ | nl
  · rfl
  · simp only [h]
    split_ifs <;> rfl

theorem validate_url_structure_http (input : String) :
    (validate_url_structure input).http_valid = false := by
  unfold validate_url_structure
  dsimp only
  rcases h : urlparseNetloc (stripUrlPrefixes (pyStrip input)) with _ | nl
  · rfl
  · simp only [h]
    split_ifs <;> rfl

theorem cacheLookup_cacheInsert (k : String) (b : Bool) (t : Nat) (c : Cache) :
    cacheLookup k (cacheInsert k b t c) = some (b, t) := by
  simp [cacheInsert, cacheLookup]

theorem cacheLookup_cacheErase (k : String) (c : Cache) :
    cacheLookup k (cacheErase k c) = none := by
  induction c with
  | nil => rfl
  | cons hd tl ih =>
    obtain ⟨k', v⟩ := hd
    by_cases h : k' = k
    · simpa [cacheErase, h] using ih
    · simpa [cacheErase, cacheLookup, h] using ih

theorem validate_url_dns_structure (env : NetEnv) (now : Nat)
    (r : URLValidationResult) (cache : Cache) :
    (validate_url_dns env now r cache).1.structure_valid = r.structure_valid := by
  unfold validate_url_dns dnsResolveStep
  split
  · rfl
  · rcases hc : cacheLookup (r.cleaned_url.getD ("")) cache with _ | ⟨b, expiry⟩
    · simp only [hc]
      cases hd : env.dns (r.cleaned_url.getD ("")) <;> simp [hd]
    · simp only [hc]
      by_cases ht : now < expiry
      · simp [ht]
      · simp only [if_neg ht]
        cases hd : env.dns (r.cleaned_url.getD ("")) <;> simp [hd]

theorem validate_url_dns_http (env : NetEnv) (now : Nat)
    (r : URLValidationResult) (cache : Cache) :
    (validate_url_dns env now r cache).1.http_valid = r.http_valid := by
  unfold validate_url_dns dnsResolveStep
  split
  · rfl
  · rcases hc : cacheLookup (r.cleaned_url.getD ("")) cache with _ | ⟨b, expiry⟩
    · simp only [hc]
      cases hd : env.dns (r.cleaned_url.getD ("")) <;> simp [hd]
    · simp only [hc]
      by_cases ht : now < expiry
      · simp [ht]
      · simp only [if_neg ht]
        cases hd : env.dns (r.cleaned_url.getD ("")) <;> simp [hd]

theorem validate_url_dns_original (env : NetEnv) (now : Nat)
    (r : URLValidationResult) (cache : Cache) :
    (validate_url_dns env now r cache).1.original_url = r.original_url := by
  unfold validate_url_dns dnsResolveStep
  split
  · rfl
  · rcases hc : cacheLookup (r.cleaned_url.getD ("")) cache with _ | ⟨b, expiry⟩
    · simp only [hc]
      cases hd : env.dns (r.cleaned_url.getD ("")) <;> simp [hd]
    · simp only [hc]
      by_cases ht : now < expiry
      · simp [ht]
      · simp only [if_neg ht]
        cases hd : env.dns (r.cleaned_url.getD ("")) <;> simp [hd]

theorem validate_url_dns_cleaned (env : NetEnv) (now : Nat)
    (r : URLValidationResult) (cache : Cache) :
    (validate_url_dns env now r cache).1.cleaned_url = r.cleaned_url := by
  unfold validate_url_dns dnsResolveStep
  split
  · rfl
  · rcases hc : cacheLookup (r.cleaned_url.getD ("")) cache with _ | ⟨b, expiry⟩
    · simp only [hc]
      cases hd : env.dns (r.cleaned_url.getD ("")) <;> simp [hd]
    · simp only [hc]
      by_cases ht : now < expiry
      · simp [ht]
      · simp only [if_neg ht]
        cases hd : env.dns (r.cleaned_url.getD ("")) <;> simp [hd]

theorem validate_url_dns_isvalid (env : NetEnv) (now : Nat)
    (r : URLValidationResult) (cache : Cache) :
    (validate_url_dns env now r cache).1.is_valid = r.is_valid := by
  unfold validate_url_dns dnsResolveStep
  split
  · rfl
  · rcases hc : cacheLookup (r.cleaned_url.getD ("")) cache with _ | ⟨b, expiry⟩
    · simp only [hc]
      cases hd : env.dns (r.cleaned_url.getD ("")) <;> simp [hd]
    · simp only [hc]
      by_cases ht : now < expiry
      · simp [ht]
      · simp only [if_neg ht]
        cases hd : env.dns (r.cleaned_url.getD ("")) <;> simp [hd]

theorem validate_url_dns_probes (env : NetEnv) (now : Nat)
    (r : URLValidationResult) (cache : Cache) :
    ∀ p ∈ (validate_url_dns env now r cache).2.2, ∃ h, p = Probe.dnsProbe h := by
  unfold validate_url_dns dnsResolveStep
  split
  · simp
  · rcases hc : cacheLookup (r.cleaned_url.getD ("")) cache with _ | ⟨b, expiry⟩
    · simp only [hc]
      cases hd : env.dns (r.cleaned_url.getD ("")) <;> simp [hd]
    · simp only [hc]
      by_cases ht : now < expiry
      · simp [ht]
      · simp only [if_neg ht]
        cases hd : env.dns (r.cleaned_url.getD ("")) <;> simp [hd]

/-- Repeating a DNS lookup with the cache produced by a first lookup
yields the same `dns_valid` verdict. -/
theorem validate_url_dns_idem (env : NetEnv) (now : Nat)
    (r : URLValidationResult) (cache : Cache) :
    (validate_url_dns env now r (validate_url_dns env now r cache).2.1).1.dns_valid
      = (validate_url_dns env now r cache).1.dns_valid := by
  by_cases hsv : r.structure_valid = false
  · unfold validate_url_dns
    simp [hsv]
  · unfold validate_url_dns dnsResolveStep
    simp only [hsv, Bool.false_eq_true, if_false]
    rcases hc : cacheLookup (r.cleaned_url.getD ("")) cache with _ | ⟨b, expiry⟩
    · simp only [hc]
      cases hd : env.dns (r.cleaned_url.getD ("")) <;>
        simp [hd, hc, cacheLookup_cacheInsert, cacheLookup_cacheErase, cacheTTL]
    · simp only [hc]
      by_cases ht : now < expiry
      · simp [ht, hc]
      · simp only [if_neg ht]
        cases hd : env.dns (r.cleaned_url.getD ("")) <;>
          simp [hd, cacheLookup_cacheInsert, cacheLookup_cacheErase, cacheTTL]

theorem validate_url_http_structure (env : NetEnv) (now : Nat)
    (r : URLValidationResult) (cache : Cache) :
    (validate_url_http env now r cache).1.structure_valid = r.structure_valid := by
  unfold validate_url_http httpProbeStep
  split
  · rfl
  · rcases hc : cacheLookup ("https://" ++ r.cleaned_url.getD ("")) cache with _ | ⟨b, expiry⟩
    · simp only [hc]
      cases hd : env.http ("https://" ++ r.cleaned_url.getD ("")) <;> simp [hd]
    · simp only [hc]
      by_cases ht : now < expiry
      · simp [ht]
      · simp only [if_neg ht]
        cases hd : env.http ("https://" ++ r.cleaned_url.getD ("")) <;> simp [hd]

theorem validate_url_http_dns (env : NetEnv) (now : Nat)
    (r : URLValidationResult) (cache : Cache) :
    (validate_url_http env now r cache).1.dns_valid = r.dns_valid := by
  unfold validate_url_http httpProbeStep
  split
  · rfl
  · rcases hc : cacheLookup ("https://" ++ r.cleaned_url.getD ("")) cache with _ | ⟨b, expiry⟩
    · simp only [hc]
      cases hd : env.http ("https://" ++ r.cleaned_url.getD ("")) <;> simp [hd]
    · simp only [hc]
      by_cases ht : now < expiry
      · simp [ht]
      · simp only [if_neg ht]
        cases hd : env.http ("https://" ++ r.cleaned_url.getD ("")) <;> simp [hd]

theorem validate_url_http_original (env : NetEnv) (now : Nat)
    (r : URLValidationResult) (cache : Cache) :
    (validate_url_http env now r cache).1.original_url = r.original_url := by
  unfold validate_url_http httpProbeStep
  split
  · rfl
  · rcases hc : cacheLookup ("https://" ++ r.cleaned_url.getD ("")) cache with _ | ⟨b, expiry⟩
    · simp only [hc]
      cases hd : env.http ("https://" ++ r.cleaned_url.getD ("")) <;> simp [hd]
    · simp only [hc]
      by_cases ht : now < expiry
      · simp [ht]
      · simp only [if_neg ht]
        cases hd : env.http ("https://" ++ r.cleaned_url.getD ("")) <;> simp [hd]

theorem validate_url_http_cleaned (env : NetEnv) (now : Nat)
    (r : URLValidationResult) (cache : Cache) :
    (validate_url_http env now r cache).1.cleaned_url = r.cleaned_url := by
  unfold validate_url_http httpProbeStep
  split
  · rfl
  · rcases hc : cacheLookup ("https://" ++ r.cleaned_url.getD ("")) cache with _ | ⟨b, expiry⟩
    · simp only [hc]
      cases hd : env.http ("https://" ++ r.cleaned_url.getD ("")) <;> simp [hd]
    · simp only [hc]
      by_cases ht : now < expiry
      · simp [ht]
      · simp only [if_neg ht]
        cases hd : env.http ("https://" ++ r.cleaned_url.getD ("")) <;> simp [hd]

/-- Repeating an HTTP probe with the cache produced by a first probe
yields the same `http_valid` verdict, for any two structure results
agreeing on the fields the probe depends on. -/
theorem validate_url_http_idem (env : NetEnv) (now : Nat)
    (r1 r2 : URLValidationResult) (cache : Cache)
    (hs : r2.structure_valid = r1.structure_valid)
    (hcl : r2.cleaned_url = r1.cleaned_url) :
    (validate_url_http env now r2 (validate_url_http env now r1 cache).2.1).1.http_valid
      = (validate_url_http env now r1 cache).1.http_valid := by
  by_cases hsv : r1.structure_valid = false
  · unfold validate_url_http
    simp [hsv, hs ▸ hsv]
  · unfold validate_url_http httpProbeStep
    simp only [hsv, hs, hcl, Bool.false_eq_true, if_false]
    rcases hc : cacheLookup ("https://" ++ r1.cleaned_url.getD ("")) cache with _ | ⟨b, expiry⟩
    · simp only [hc]
      cases hd : env.http ("https://" ++ r1.cleaned_url.getD ("")) <;>
        simp [hd, hc, cacheLookup_cacheInsert, cacheLookup_cacheErase, cacheTTL]
    · simp only [hc]
      by_cases ht : now < expiry
      · simp [ht, hc]
      · simp only [if_neg ht]
        cases hd : env.http ("https://" ++ r1.cleaned_url.getD ("")) <;>
          simp [hd, cacheLookup_cacheInsert, cacheLookup_cacheErase, cacheTTL]

theorem dnsPhase_true (env : NetEnv) (now : Nat) (r : URLValidationResult) (c : Cache) :
    dnsPhase env now true r c = validate_url_dns env now r c := rfl

theorem dnsPhase_false (env : NetEnv) (now : Nat) (r : URLValidationResult) (c : Cache) :
    dnsPhase env now false r c = (r, c, []) := rfl

theorem httpPhase_true (env : NetEnv) (now : Nat) (r : URLValidationResult) (c : Cache) :
    httpPhase env now true r c = validate_url_http env now r c := rfl

theorem httpPhase_false (env : NetEnv) (now : Nat) (r : URLValidationResult) (c : Cache) :
    httpPhase env now false r c = (r, c, []) := rfl

theorem dnsPhase_structure (env : NetEnv) (now : Nat) (vd : Bool)
    (r0 : URLValidationResult) (c : Cache) :
    (dnsPhase env now vd r0 c).1.structure_valid = r0.structure_valid := by
  cases vd <;> simp [dnsPhase, validate_url_dns_structure]

theorem dnsPhase_probes (env : NetEnv) (now : Nat) (vd : Bool)
    (r0 : URLValidationResult) (c : Cache) :
    ∀ p ∈ (dnsPhase env now vd r0 c).2.2, ∃ h, p = Probe.dnsProbe h := by
  cases vd
  · simp [dnsPhase]
  · simpa [dnsPhase] using validate_url_dns_probes env now r0 c

theorem httpPhase_structure (env : NetEnv) (now : Nat) (vh : Bool)
    (r : URLValidationResult) (c : Cache) :
    (httpPhase env now vh r c).1.structure_valid = r.structure_valid := by
  cases vh <;> simp [httpPhase, validate_url_http_structure]

theorem httpPhase_dns (env : NetEnv) (now : Nat) (vh : Bool)
    (r : URLValidationResult) (c : Cache) :
    (httpPhase env now vh r c).1.dns_valid = r.dns_valid := by
  cases vh <;> simp [httpPhase, validate_url_http_dns]

theorem httpPhase_original (env : NetEnv) (now : Nat) (vh : Bool)
    (r : URLValidationResult) (c : Cache) :
    (httpPhase env now vh r c).1.original_url = r.original_url := by
  cases vh <;> simp [httpPhase, validate_url_http_original]

theorem httpPhase_cleaned (env : NetEnv) (now : Nat) (vh : Bool)
    (r : URLValidationResult) (c : Cache) :
    (httpPhase env now vh r c).1.cleaned_url = r.cleaned_url := by
  cases vh <;> simp [httpPhase, validate_url_http_cleaned]

theorem httpPhase_idem (env : NetEnv) (now : Nat) (vh : Bool)
    (r1 r2 : URLValidationResult) (c : Cache)
    (hs : r2.structure_valid = r1.structure_valid)
    (hcl : r2.cleaned_url = r1.cleaned_url)
    (hh : r2.http_valid = r1.http_valid) :
    (httpPhase env now vh r2 (httpPhase env now vh r1 c).2.1).1.http_valid
      = (httpPhase env now vh r1 c).1.http_valid := by
  cases vh
  · simpa [httpPhase] using hh
  · simpa [httpPhase] using validate_url_http_idem env now r1 r2 c hs hcl

theorem validate_url_eq_clean (env : NetEnv) (now : Nat) (url : String)
    (vd vh : Bool) (dnsC httpC : Cache) (hu : ¬ url = "") :
    validate_url env now url vd vh true dnsC httpC
      = ({validate_url_structure url with is_valid := true}, dnsC, httpC, []) := by
  unfold validate_url
  rw [if_neg hu]
  rfl

theorem validate_url_eq_structfail (env : NetEnv) (now : Nat) (url : String)
    (vd vh : Bool) (dnsC httpC : Cache) (hu : ¬ url = "")
    (hs : (validate_url_structure url).structure_valid = false) :
    validate_url env now url vd vh false dnsC httpC
      = (validate_url_structure url, dnsC, httpC, []) := by
  unfold validate_url
  rw [if_neg hu]
  dsimp only
  rw [if_neg (by simp), if_pos hs]

theorem validate_url_eq_early (env : NetEnv) (now : Nat) (url : String)
    (vd vh : Bool) (dnsC httpC : Cache) (hu : ¬ url = "")
    (hs : (validate_url_structure url).structure_valid = true)
    (hb : (vd && !(dnsPhase env now vd (validate_url_structure url) dnsC).1.dns_valid) = true) :
    validate_url env now url vd vh false dnsC httpC
      = ((dnsPhase env now vd (validate_url_structure url) dnsC).1,
         (dnsPhase env now vd (validate_url_structure url) dnsC).2.1, httpC,
         (dnsPhase env now vd (validate_url_structure url) dnsC).2.2) := by
  unfold validate_url
  rw [if_neg hu]
  dsimp only
  rw [if_neg (by simp), if_neg (by simp [hs]), if_pos hb]

theorem validate_url_eq_late (env : NetEnv) (now : Nat) (url : String)
    (vd vh : Bool) (dnsC httpC : Cache) (hu : ¬ url = "")
    (hs : (validate_url_structure url).structure_valid = true)
    (hb : (vd && !(dnsPhase env now vd (validate_url_structure url) dnsC).1.dns_valid) = false) :
    validate_url env now url vd vh false dnsC httpC
      = (finalizeValidity vd vh
          (httpPhase env now vh
            (dnsPhase env now vd (validate_url_structure url) dnsC).1 httpC).1,
         (dnsPhase env now vd (validate_url_structure url) dnsC).2.1,
         (httpPhase env now vh
            (dnsPhase env now vd (validate_url_structure url) dnsC).1 httpC).2.1,
         (dnsPhase env now vd (validate_url_structure url) dnsC).2.2
           ++ (httpPhase env now vh
            (dnsPhase env now vd (validate_url_structure url) dnsC).1 httpC).2.2) := by
  unfold validate_url
  rw [if_neg hu]
  dsimp only
  rw [if_neg (by simp), if_neg (by simp [hs]), if_neg (by simp [hb])]

theorem validate_url_eq_nodns (env : NetEnv) (now : Nat) (url : String)
    (vh : Bool) (dnsC httpC : Cache) (hu : ¬ url = "")
    (hs : (validate_url_structure url).structure_valid = true) :
    validate_url env now url false vh false dnsC httpC
      = (finalizeValidity false vh
          (httpPhase env now vh (validate_url_structure url) httpC).1,
         dnsC,
         (httpPhase env now vh (validate_url_structure url) httpC).2.1,
         (httpPhase env now vh (validate_url_structure url) httpC).2.2) := by
  rw [validate_url_eq_late env now url false vh dnsC httpC hu hs (by simp)]
  simp [dnsPhase_false]

theorem validate_url_eq_dnsfail (env : NetEnv) (now : Nat) (url : String)
    (vh : Bool) (dnsC httpC : Cache) (hu : ¬ url = "")
    (hs : (validate_url_structure url).structure_valid = true)
    (hdv : (validate_url_dns env now (validate_url_structure url) dnsC).1.dns_valid = false) :
    validate_url env now url true vh false dnsC httpC
      = ((validate_url_dns env now (validate_url_structure url) dnsC).1,
         (validate_url_dns env now (validate_url_structure url) dnsC).2.1, httpC,
         (validate_url_dns env now (validate_url_structure url) dnsC).2.2) := by
  rw [validate_url_eq_early env now url true vh dnsC httpC hu hs (by simp [dnsPhase_true, hdv])]
  simp [dnsPhase_true]

theorem validate_url_eq_dnsok (env : NetEnv) (now : Nat) (url : String)
    (vh : Bool) (dnsC httpC : Cache) (hu : ¬ url = "")
    (hs : (validate_url_structure url).structure_valid = true)
    (hdv : (validate_url_dns env now (validate_url_structure url) dnsC).1.dns_valid = true) :
    validate_url env now url true vh false dnsC httpC
      = (finalizeValidity true vh
          (httpPhase env now vh
            (validate_url_dns env now (validate_url_structure url) dnsC).1 httpC).1,
         (validate_url_dns env now (validate_url_structure url) dnsC).2.1,
         (httpPhase env now vh
            (validate_url_dns env now (validate_url_structure url) dnsC).1 httpC).2.1,
         (validate_url_dns env now (validate_url_structure url) dnsC).2.2
           ++ (httpPhase env now vh
            (validate_url_dns env now (validate_url_structure url) dnsC).1 httpC).2.2) := by
  rw [validate_url_eq_late env now url true vh dnsC httpC hu hs (by simp [dnsPhase_true, hdv])]
  simp [dnsPhase_true]

theorem finalizeValidity_original (vd vh : Bool) (r : URLValidationResult) :
    (finalizeValidity vd vh r).original_url = r.original_url := rfl

theorem finalizeValidity_structure (vd vh : Bool) (r : URLValidationResult) :
    (finalizeValidity vd vh r).structure_valid = r.structure_valid := rfl

theorem finalizeValidity_dns (vd vh : Bool) (r : URLValidationResult) :
    (finalizeValidity vd vh r).dns_valid = r.dns_valid := rfl

theorem finalizeValidity_http (vd vh : Bool) (r : URLValidationResult) :
    (finalizeValidity vd vh r).http_valid = r.http_valid := rfl

theorem finalizeValidity_cleaned (vd vh : Bool) (r : URLValidationResult) :
    (finalizeValidity vd vh r).cleaned_url = r.cleaned_url := rfl

/-- C4: for every input URL and every tier selection, if structure
validation fails then no DNS lookup and no HTTP probe is performed and
both `dns_valid` and `http_valid` are false; and if DNS validation was
requested and failed, no HTTP probe is performed. -/
theorem C4_tier_short_circuit (env : NetEnv) (now : Nat) (url : String)
    (vd vh co : Bool) (dnsC httpC : Cache) :
    ((validate_url env now url vd vh co dnsC httpC).1.structure_valid = false →
      (validate_url env now url vd vh co dnsC httpC).1.dns_valid = false
      ∧ (validate_url env now url vd vh co dnsC httpC).1.http_valid = false
      ∧ (validate_url env now url vd vh co dnsC httpC).2.2.2 = [])
    ∧ (vd = true →
      (validate_url env now url vd vh co dnsC httpC).1.dns_valid = false →
      ∀ u, Probe.httpProbe u ∉ (validate_url env now url vd vh co dnsC httpC).2.2.2) := by
  by_cases hu : url = ""
  · subst hu
    exact ⟨fun _ => ⟨rfl, rfl, rfl⟩, fun _ _ u => by simp [validate_url]⟩
  · by_cases hco : co = true
    · subst hco
      rw [validate_url_eq_clean env now url vd vh dnsC httpC hu]
      refine ⟨fun _ => ⟨?_, ?_, rfl⟩, fun _ _ u => by simp⟩
      · simpa using validate_url_structure_dns url
      · simpa using validate_url_structure_http url
    · have hco' : co = false := by
        cases co
        · rfl
        · exact absurd rfl hco
      subst hco'
      by_cases hs : (validate_url_structure url).structure_valid = false
      · rw [validate_url_eq_structfail env now url vd vh dnsC httpC hu hs]
        refine ⟨fun _ => ⟨?_, ?_, rfl⟩, fun _ _ u => by simp⟩
        · simpa using validate_url_structure_dns url
        · simpa using validate_url_structure_http url
      · have hs' : (validate_url_structure url).structure_valid = true := by
          revert hs
          cases (validate_url_structure url).structure_valid <;> simp
        by_cases hb : (vd && !(dnsPhase env now vd (validate_url_structure url) dnsC).1.dns_valid) = true
        · rw [validate_url_eq_early env now url vd vh dnsC httpC hu hs' hb]
          constructor
          · intro hfail
            exfalso
            rw [show ((dnsPhase env now vd (validate_url_structure url) dnsC).1,
                (dnsPhase env now vd (validate_url_structure url) dnsC).2.1, httpC,
                (dnsPhase env now vd (validate_url_structure url) dnsC).2.2).1
              = (dnsPhase env now vd (validate_url_structure url) dnsC).1 from rfl] at hfail
            rw [dnsPhase_structure, hs'] at hfail
            exact absurd hfail (by simp)
          · intro _ _ u hmem
            obtain ⟨h, hp⟩ := dnsPhase_probes env now vd (validate_url_structure url) dnsC
              (Probe.httpProbe u) hmem
            exact Probe.noConfusion hp
        · have hb' : (vd && !(dnsPhase env now vd (validate_url_structure url) dnsC).1.dns_valid) = false := by
            revert hb
            cases (vd && !(dnsPhase env now vd (validate_url_structure url) dnsC).1.dns_valid) <;> simp
          rw [validate_url_eq_late env now url vd vh dnsC httpC hu hs' hb']
          constructor
          · intro hfail
            exfalso
            have hstr : (finalizeValidity vd vh
                (httpPhase env now vh
                  (dnsPhase env now vd (validate_url_structure url) dnsC).1 httpC).1).structure_valid = true := by
              show (httpPhase env now vh
                  (dnsPhase env now vd (validate_url_structure url) dnsC).1 httpC).1.structure_valid = true
              rw [httpPhase_structure, dnsPhase_structure, hs']
            rw [show (finalizeValidity vd vh
                (httpPhase env now vh
                  (dnsPhase env now vd (validate_url_structure url) dnsC).1 httpC).1,
                (dnsPhase env now vd (validate_url_structure url) dnsC).2.1,
                (httpPhase env now vh
                  (dnsPhase env now vd (validate_url_structure url) dnsC).1 httpC).2.1,
                (dnsPhase env now vd (validate_url_structure url) dnsC).2.2
                  ++ (httpPhase env now vh
                  (dnsPhase env now vd (validate_url_structure url) dnsC).1 httpC).2.2).1
              = finalizeValidity vd vh
                (httpPhase env now vh
                  (dnsPhase env now vd (validate_url_structure url) dnsC).1 httpC).1 from rfl] at hfail
            rw [hstr] at hfail
            exact absurd hfail (by simp)
          · intro hvd hfail u _
            exfalso
            subst hvd
            have hd : (dnsPhase env now true (validate_url_structure url) dnsC).1.dns_valid = true := by
              revert hb'
              cases (dnsPhase env now true (validate_url_structure url) dnsC).1.dns_valid <;> simp
            have hdf : (finalizeValidity true vh
                (httpPhase env now vh
                  (dnsPhase env now true (validate_url_structure url) dnsC).1 httpC).1).dns_valid = true := by
              show (httpPhase env now vh
                  (dnsPhase env now true (validate_url_structure url) dnsC).1 httpC).1.dns_valid = true
              rw [httpPhase_dns, hd]
            rw [show (finalizeValidity true vh
                (httpPhase env now vh
                  (dnsPhase env now true (validate_url_structure url) dnsC).1 httpC).1,
                (dnsPhase env now true (validate_url_structure url) dnsC).2.1,
                (httpPhase env now vh
                  (dnsPhase env now true (validate_url_structure url) dnsC).1 httpC).2.1,
                (dnsPhase env now true (validate_url_structure url) dnsC).2.2
                  ++ (httpPhase env now vh
                  (dnsPhase env now true (validate_url_structure url) dnsC).1 httpC).2.2).1
              = finalizeValidity true vh
                (httpPhase env now vh
                  (dnsPhase env now true (validate_url_structure url) dnsC).1 httpC).1 from rfl] at hfail
            rw [hdf] at hfail
            exact absurd hfail (by simp)

/-- Witness for `C4_tier_short_circuit` at the structurally invalid
input `"<<bad"` with both network tiers requested. -/
theorem C4_tier_short_circuit_witness :
    ((validate_url ⟨fun _ => DNSOutcome.resolved, fun _ => HTTPOutcome.status 200⟩
        0 ("<<bad") true true false [] []).1.structure_valid = false)
    ∧ ((validate_url ⟨fun _ => DNSOutcome.resolved, fun _ => HTTPOutcome.status 200⟩
        0 ("<<bad") true true false [] []).1.dns_valid = false
      ∧ (validate_url ⟨fun _ => DNSOutcome.resolved, fun _ => HTTPOutcome.status 200⟩
        0 ("<<bad") true true false [] []).1.http_valid = false
      ∧ (validate_url ⟨fun _ => DNSOutcome.resolved, fun _ => HTTPOutcome.status 200⟩
        0 ("<<bad") true true false [] []).2.2.2 = [])
    ∧ (∀ u, Probe.httpProbe u ∉ (validate_url
        ⟨fun _ => DNSOutcome.resolved, fun _ => HTTPOutcome.status 200⟩
        0 ("<<bad") true true false [] []).2.2.2) :=
  ⟨by decide,
   (C4_tier_short_circuit ⟨fun _ => DNSOutcome.resolved, fun _ => HTTPOutcome.status 200⟩
      0 ("<<bad") true true false [] []).1 (by decide),
   fun u => (C4_tier_short_circuit ⟨fun _ => DNSOutcome.resolved, fun _ => HTTPOutcome.status 200⟩
      0 ("<<bad") true true false [] []).2 rfl (by decide) u⟩

/-- C5 (amended): repeating a validation with identical tier selection
and the caches produced by the first call yields a result agreeing on
`original_url`, `is_valid`, `structure_valid`, `dns_valid`,
`http_valid` and `cleaned_url`; only `reason` may differ (see the
counterexample for the cached-negative wording change). -/
theorem C5_repeat_validation_fields_equal (env : NetEnv) (now : Nat) (url : String)
    (vd vh co : Bool) (dnsC httpC : Cache) :
    (validate_url env now url vd vh co
        (validate_url env now url vd vh co dnsC httpC).2.1
        (validate_url env now url vd vh co dnsC httpC).2.2.1).1.original_url
      = (validate_url env now url vd vh co dnsC httpC).1.original_url
    ∧ (validate_url env now url vd vh co
        (validate_url env now url vd vh co dnsC httpC).2.1
        (validate_url env now url vd vh co dnsC httpC).2.2.1).1.is_valid
      = (validate_url env now url vd vh co dnsC httpC).1.is_valid
    ∧ (validate_url env now url vd vh co
        (validate_url env now url vd vh co dnsC httpC).2.1
        (validate_url env now url vd vh co dnsC httpC).2.2.1).1.structure_valid
      = (validate_url env now url vd vh co dnsC httpC).1.structure_valid
    ∧ (validate_url env now url vd vh co
        (validate_url env now url vd vh co dnsC httpC).2.1
        (validate_url env now url vd vh co dnsC httpC).2.2.1).1.dns_valid
      = (validate_url env now url vd vh co dnsC httpC).1.dns_valid
    ∧ (validate_url env now url vd vh co
        (validate_url env now url vd vh co dnsC httpC).2.1
        (validate_url env now url vd vh co dnsC httpC).2.2.1).1.http_valid
      = (validate_url env now url vd vh co dnsC httpC).1.http_valid
    ∧ (validate_url env now url vd vh co
        (validate_url env now url vd vh co dnsC httpC).2.1
        (validate_url env now url vd vh co dnsC httpC).2.2.1).1.cleaned_url
      = (validate_url env now url vd vh co dnsC httpC).1.cleaned_url := by
  by_cases hu : url = ""
  · subst hu
    exact ⟨rfl, rfl, rfl, rfl, rfl, rfl⟩
  · by_cases hco : co = true
    · subst hco
      rw [validate_url_eq_clean env now url vd vh dnsC httpC hu]
      rw [validate_url_eq_clean env now url vd vh dnsC httpC hu]
      exact ⟨rfl, rfl, rfl, rfl, rfl, rfl⟩
    · have hco' : co = false := by
        cases co
        · rfl
        · exact absurd rfl hco
      subst hco'
      by_cases hsf : (validate_url_structure url).structure_valid = false
      · rw [validate_url_eq_structfail env now url vd vh dnsC httpC hu hsf]
        rw [validate_url_eq_structfail env now url vd vh dnsC httpC hu hsf]
        exact ⟨rfl, rfl, rfl, rfl, rfl, rfl⟩
      · have hs' : (validate_url_structure url).structure_valid = true := by
          revert hsf
          cases (validate_url_structure url).structure_valid <;> simp
        cases vd
        · rw [validate_url_eq_nodns env now url vh dnsC httpC hu hs']
          dsimp only
          rw [validate_url_eq_nodns env now url vh dnsC
            ((httpPhase env now vh (validate_url_structure url) httpC).2.1) hu hs']
          have eH := httpPhase_idem env now vh (validate_url_structure url)
            (validate_url_structure url) httpC rfl rfl rfl
          refine ⟨?_, ?_, ?_, ?_, ?_, ?_⟩
          · rw [finalizeValidity_original, finalizeValidity_original,
              httpPhase_original, httpPhase_original]
          · show (finalizeValidity false vh _).is_valid = (finalizeValidity false vh _).is_valid
            simp only [finalizeValidity]
            rw [httpPhase_structure, httpPhase_structure, eH]
            simp
          · rw [finalizeValidity_structure, finalizeValidity_structure,
              httpPhase_structure, httpPhase_structure]
          · rw [finalizeValidity_dns, finalizeValidity_dns, httpPhase_dns, httpPhase_dns]
          · rw [finalizeValidity_http, finalizeValidity_http, eH]
          · rw [finalizeValidity_cleaned, finalizeValidity_cleaned,
              httpPhase_cleaned, httpPhase_cleaned]
        · by_cases hdv : (validate_url_dns env now (validate_url_structure url) dnsC).1.dns_valid = true
          · rw [validate_url_eq_dnsok env now url vh dnsC httpC hu hs' hdv]
            dsimp only
            have hdv2 : (validate_url_dns env now (validate_url_structure url)
                (validate_url_dns env now (validate_url_structure url) dnsC).2.1).1.dns_valid = true := by
              rw [validate_url_dns_idem, hdv]
            rw [validate_url_eq_dnsok env now url vh
              ((validate_url_dns env now (validate_url_structure url) dnsC).2.1)
              ((httpPhase env now vh
                (validate_url_dns env now (validate_url_structure url) dnsC).1 httpC).2.1)
              hu hs' hdv2]
            have eS : (validate_url_dns env now (validate_url_structure url)
                (validate_url_dns env now (validate_url_structure url) dnsC).2.1).1.structure_valid
                = (validate_url_dns env now (validate_url_structure url) dnsC).1.structure_valid := by
              rw [validate_url_dns_structure, validate_url_dns_structure]
            have eCl : (validate_url_dns env now (validate_url_structure url)
                (validate_url_dns env now (validate_url_structure url) dnsC).2.1).1.cleaned_url
                = (validate_url_dns env now (validate_url_structure url) dnsC).1.cleaned_url := by
              rw [validate_url_dns_cleaned, validate_url_dns_cleaned]
            have eHt : (validate_url_dns env now (validate_url_structure url)
                (validate_url_dns env now (validate_url_structure url) dnsC).2.1).1.http_valid
                = (validate_url_dns env now (validate_url_structure url) dnsC).1.http_valid := by
              rw [validate_url_dns_http, validate_url_dns_http]
            have eH := httpPhase_idem env now vh
              (validate_url_dns env now (validate_url_structure url) dnsC).1
              (validate_url_dns env now (validate_url_structure url)
                (validate_url_dns env now (validate_url_structure url) dnsC).2.1).1
              httpC eS eCl eHt
            have eD : (validate_url_dns env now (validate_url_structure url)
                (validate_url_dns env now (validate_url_structure url) dnsC).2.1).1.dns_valid
                = (validate_url_dns env now (validate_url_structure url) dnsC).1.dns_valid := by
              rw [validate_url_dns_idem]
            have eO : (validate_url_dns env now (validate_url_structure url)
                (validate_url_dns env now (validate_url_structure url) dnsC).2.1).1.original_url
                = (validate_url_dns env now (validate_url_structure url) dnsC).1.original_url := by
              rw [validate_url_dns_original, validate_url_dns_original]
            refine ⟨?_, ?_, ?_, ?_, ?_, ?_⟩
            · rw [finalizeValidity_original, finalizeValidity_original,
                httpPhase_original, httpPhase_original, eO]
            · simp only [finalizeValidity]
              rw [httpPhase_structure, httpPhase_structure, eS,
                httpPhase_dns, httpPhase_dns, eD, eH]
            · rw [finalizeValidity_structure, finalizeValidity_structure,
                httpPhase_structure, httpPhase_structure, eS]
            · rw [finalizeValidity_dns, finalizeValidity_dns, httpPhase_dns, httpPhase_dns, eD]
            · rw [finalizeValidity_http, finalizeValidity_http, eH]
            · rw [finalizeValidity_cleaned, finalizeValidity_cleaned,
                httpPhase_cleaned, httpPhase_cleaned, eCl]
          · have hdv' : (validate_url_dns env now (validate_url_structure url) dnsC).1.dns_valid = false := by
              revert hdv
              cases (validate_url_dns env now (validate_url_structure url) dnsC).1.dns_valid <;> simp
            rw [validate_url_eq_dnsfail env now url vh dnsC httpC hu hs' hdv']
            dsimp only
            have hdv2 : (validate_url_dns env now (validate_url_structure url)
                (validate_url_dns env now (validate_url_structure url) dnsC).2.1).1.dns_valid = false := by
              rw [validate_url_dns_idem, hdv']
            rw [validate_url_eq_dnsfail env now url vh
              ((validate_url_dns env now (validate_url_structure url) dnsC).2.1) httpC hu hs' hdv2]
            refine ⟨?_, ?_, ?_, ?_, ?_, ?_⟩
            · rw [validate_url_dns_original, validate_url_dns_original]
            · rw [validate_url_dns_isvalid, validate_url_dns_isvalid]
            · rw [validate_url_dns_structure, validate_url_dns_structure]
            · rw [validate_url_dns_idem]
            · rw [validate_url_dns_http, validate_url_dns_http]
            · rw [validate_url_dns_cleaned, validate_url_dns_cleaned]

/-- C5 counterexample: the `reason` field is NOT preserved by the
repeated call.  A first DNS-failing validation of `noresolve.test`
reports `Domain does not resolve`; the second call, answered from the
cache, reports `Domain does not resolve (cached result)`.  The claim
as stated (all fields including `reason` identical) is therefore
false. -/
theorem C5_reason_differs_counterexample :
    (validate_url ⟨fun _ => DNSOutcome.noResolve, fun _ => HTTPOutcome.status 200⟩
        0 ("noresolve.test") true false false
        (validate_url ⟨fun _ => DNSOutcome.noResolve, fun _ => HTTPOutcome.status 200⟩
          0 ("noresolve.test") true false false [] []).2.1
        (validate_url ⟨fun _ => DNSOutcome.noResolve, fun _ => HTTPOutcome.status 200⟩
          0 ("noresolve.test") true false false [] []).2.2.1).1.reason
      ≠ (validate_url ⟨fun _ => DNSOutcome.noResolve, fun _ => HTTPOutcome.status 200⟩
          0 ("noresolve.test") true false false [] []).1.reason := by
  decide

/-- C10: with `clean_only=True`, any non-empty input yields
`is_valid=True` (even when structure validation failed and
`cleaned_url` is unset), and the empty input yields `is_valid=False`. -/
theorem C10_clean_only_always_valid (env : NetEnv) (now : Nat) (url : String)
    (vd vh : Bool) (dnsC httpC : Cache) :
    (url ≠ "" → (validate_url env now url vd vh true dnsC httpC).1.is_valid = true)
    ∧ (validate_url env now ("") vd vh true dnsC httpC).1.is_valid = false := by
  constructor
  · intro hu
    rw [validate_url_eq_clean env now url vd vh dnsC httpC hu]
  · rfl

/-- Witness for `C10_clean_only_always_valid`: the structurally invalid
non-empty input `"<<bad"` still yields `is_valid=true` under
`clean_only`, with `cleaned_url` unset. -/
theorem C10_clean_only_always_valid_witness :
    (validate_url ⟨fun _ => DNSOutcome.resolved, fun _ => HTTPOutcome.status 200⟩
      0 ("<<bad") true false true [] []).1.is_valid = true
    ∧ (validate_url ⟨fun _ => DNSOutcome.resolved, fun _ => HTTPOutcome.status 200⟩
      0 ("<<bad") true false true [] []).1.cleaned_url = none :=
  ⟨(C10_clean_only_always_valid ⟨fun _ => DNSOutcome.resolved, fun _ => HTTPOutcome.status 200⟩
      0 ("<<bad") true false [] []).1 (by decide), by decide⟩

theorem updAssoc_keys (P : String → Prop) (k : String) (v : KeptCustomer)
    (l : List (String × KeptCustomer)) (hk : P k) (hl : ∀ p ∈ l, P p.1) :
    ∀ p ∈ updAssoc k v l, P p.1 := by
  induction l with
  | nil =>
    intro p hp
    simp only [updAssoc, List.mem_singleton] at hp
    subst hp
    exact hk
  | cons hd tl ih =>
    obtain ⟨k', v'⟩ := hd
    intro p hp
    by_cases h : k' = k
    · simp only [updAssoc, if_pos h, List.mem_cons] at hp
      rcases hp with rfl | hp
      · exact hk
      · exact hl p (List.mem_cons_of_mem _ hp)
    · simp only [updAssoc, if_neg h, List.mem_cons] at hp
      rcases hp with rfl | hp
      · exact hl _ (List.mem_cons_self _ _)
      · exact ih (fun q hq => hl q (List.mem_cons_of_mem _ hq)) p hp

theorem pdwgLoop_names (vendor : String) (data : List DataItem)
    (dict : List (String × KeptCustomer))
    (hd : ∀ p ∈ dict, lowerStr p.1 ≠ lowerStr vendor) :
    ∀ p ∈ pdwgLoop vendor data dict, lowerStr p.1 ≠ lowerStr vendor := by
  induction data generalizing dict with
  | nil => simpa [pdwgLoop] using hd
  | cons item rest ih =>
    by_cases hn : strFalsy item.name = true
    · simpa [pdwgLoop, hn] using ih dict hd
    · simp only [pdwgLoop, hn, Bool.false_eq_true, if_false]
      by_cases hv : lowerStr (item.name.getD ("")) = lowerStr vendor
      · simpa [hv] using ih dict hd
      · simp only [hv, if_false]
        by_cases hurl : (if strFalsy item.url then synthUrl (item.name.getD (""))
            else item.url.getD ("")) = ""
        · simpa [hurl] using ih dict hd
        · simp only [hurl, if_false]
          by_cases hsv : (validateUrlPure (if strFalsy item.url
              then synthUrl (item.name.getD ("")) else item.url.getD (""))).structure_valid = true
          · simp only [hsv, if_true]
            exact ih _ (updAssoc_keys (fun s => lowerStr s ≠ lowerStr vendor) _ _ dict hv hd)
          · simp only [hsv]
            simpa [Bool.not_eq_true] using ih dict hd

/-- C1 (amended): the fallback analysis path
`process_data_without_grok` never emits a record whose lower-cased
name equals the lower-cased subject name (names are compared
lower-cased but NOT trimmed, as in the source). -/
theorem C1_fallback_self_exclusion (data : List DataItem) (vendor : String) (maxResults : Nat) :
    ∀ r ∈ process_data_without_grok data vendor maxResults,
      lowerStr r.customer_name ≠ lowerStr vendor := by
  intro r hr
  unfold process_data_without_grok at hr
  dsimp only at hr
  have hr' : r ∈ (pdwgLoop vendor data []).map (fun p =>
      (⟨vendor, p.1, p.2.url, none, none, some p.2.validation, none⟩ : ResultRecord)) := by
    split at hr
    · exact List.take_subset _ _ hr
    · exact hr
  obtain ⟨p, hp, rfl⟩ := List.mem_map.mp hr'
  exact pdwgLoop_names vendor data [] (by simp) p hp

/-- Witness for `C1_fallback_self_exclusion`: the record kept for
`Globex` for subject `Acme`. -/
theorem C1_fallback_self_exclusion_witness :
    lowerStr ((⟨("Acme"), ("Globex"), ("globex.com"), none, none,
      some ⟨true, false, false⟩, none⟩ : ResultRecord).customer_name)
      ≠ lowerStr ("Acme") :=
  C1_fallback_self_exclusion
    [⟨some ("Acme"), some ("acme.com"), none, none⟩,
     ⟨some ("Globex"), some ("globex.com"), none, none⟩] ("Acme") 20 _ (by decide)

/-- C1 counterexample: `process_vendor` in `worker.py` performs NO
self-exclusion in its final formatting: for subject `Acme` and a
candidate record named `Acme` carrying a URL, the final results contain
a record whose trimmed, lower-cased name equals the trimmed,
lower-cased subject name.  The claim as stated is therefore false. -/
theorem C1_worker_self_inclusion_counterexample :
    ((processVendorResults ("Acme")
        [⟨some ("Acme"), some ("acme.com"), none, none⟩] [] 20).any
      (fun r => lowerStr (pyStrip r.customer_name) == lowerStr (pyStrip ("Acme")))) = true := by
  decide

/-- C2 (amended): `enhanced_search_callback` never decreases the
progress step (its update is guarded by a strict comparison with the
current step). -/
theorem C2_enhanced_search_monotonic (cur : Progress) (vendor : String) (m : SearchMetrics) :
    cur.step ≤ (enhancedSearchCallbackUpdate cur vendor m).step := by
  unfold enhancedSearchCallbackUpdate
  dsimp only
  by_cases h : cur.step < enhancedSearchProgressStep m
  · simp only [if_pos h]
    exact Nat.le_of_lt h
  · simp [if_neg h]

/-- C2 counterexample: `vendor_site_callback` writes its computed
progress unconditionally and CAN regress the percentage: from the step
20 set before vendor-site scraping, a callback with no customer links
found resets the step to 10.  The claim that no callback may regress
the overall percentage is therefore false. -/
theorem C2_vendor_site_regression_counterexample :
    (vendorSiteCallbackUpdate ⟨20, ("Searching vendor website for Acme...")⟩ ("Acme")
      ⟨("vendor_site_started"), 0, 0, 0, (""), (""), 0, ("")⟩).step < 20 := by
  decide

/-- With only the DNS tier requested, `http_valid` is always false. -/
theorem validate_url_dnsonly_http_false (env : NetEnv) (now : Nat) (url : String)
    (dc hc : Cache) :
    (validate_url env now url true false false dc hc).1.http_valid = false := by
  by_cases hu : url = ""
  · subst hu
    rfl
  · by_cases hsf : (validate_url_structure url).structure_valid = false
    · rw [validate_url_eq_structfail env now url true false dc hc hu hsf]
      exact validate_url_structure_http url
    · have hs' : (validate_url_structure url).structure_valid = true := by
        revert hsf
        cases (validate_url_structure url).structure_valid <;> simp
      by_cases hdv : (validate_url_dns env now (validate_url_structure url) dc).1.dns_valid = true
      · rw [validate_url_eq_dnsok env now url false dc hc hu hs' hdv]
        dsimp only
        rw [finalizeValidity_http, httpPhase_false]
        dsimp only
        rw [validate_url_dns_http]
        exact validate_url_structure_http url
      · have hdv' : (validate_url_dns env now (validate_url_structure url) dc).1.dns_valid = false := by
          revert hdv
          cases (validate_url_dns env now (validate_url_structure url) dc).1.dns_valid <;> simp
        rw [validate_url_eq_dnsfail env now url false dc hc hu hs' hdv']
        dsimp only
        rw [validate_url_dns_http]
        exact validate_url_structure_http url

/-- With only the DNS tier requested, a DNS-valid result is
structure-valid. -/
theorem validate_url_dnsonly_dns_imp_structure (env : NetEnv) (now : Nat) (url : String)
    (dc hc : Cache)
    (h : (validate_url env now url true false false dc hc).1.dns_valid = true) :
    (validate_url env now url true false false dc hc).1.structure_valid = true := by
  by_cases hu : url = ""
  · subst hu
    have hfalse : (validate_url env now ("") true false false dc hc).1.dns_valid = false := rfl
    rw [hfalse] at h
    exact absurd h (by simp)
  · by_cases hsf : (validate_url_structure url).structure_valid = false
    · rw [validate_url_eq_structfail env now url true false dc hc hu hsf] at h
      rw [show ((validate_url_structure url, dc, hc, ([] : List Probe)).1).dns_valid
          = (validate_url_structure url).dns_valid from rfl] at h
      rw [validate_url_structure_dns url] at h
      exact absurd h (by simp)
    · have hs' : (validate_url_structure url).structure_valid = true := by
        revert hsf
        cases (validate_url_structure url).structure_valid <;> simp
      by_cases hdv : (validate_url_dns env now (validate_url_structure url) dc).1.dns_valid = true
      · rw [validate_url_eq_dnsok env now url false dc hc hu hs' hdv]
        dsimp only
        rw [finalizeValidity_structure, httpPhase_false]
        dsimp only
        rw [validate_url_dns_structure]
        exact hs'
      · have hdv' : (validate_url_dns env now (validate_url_structure url) dc).1.dns_valid = false := by
          revert hdv
          cases (validate_url_dns env now (validate_url_structure url) dc).1.dns_valid <;> simp
        rw [validate_url_eq_dnsfail env now url false dc hc hu hs' hdv'] at h
        dsimp only at h
        rw [hdv'] at h
        exact absurd h (by simp)

theorem appFormatLoop_validation (env : NetEnv) (now : Nat) (vendor : String)
    (items : List DataItem) (dc hc : Cache) (acc : List ResultRecord)
    (hacc : ∀ r ∈ acc, r.validation = some ⟨true, true, false⟩) :
    ∀ r ∈ (appFormatLoop env now vendor items dc hc acc).1,
      r.validation = some ⟨true, true, false⟩ := by
  induction items generalizing dc hc acc with
  | nil => simpa [appFormatLoop] using hacc
  | cons item rest ih =>
    by_cases hf : strFalsy item.url = true
    · simpa [appFormatLoop, hf] using ih dc hc acc hacc
    · simp only [appFormatLoop, hf, Bool.false_eq_true, if_false]
      by_cases hsv : (validateUrlPure (item.url.getD (""))).structure_valid = true
      · simp only [hsv, if_true]
        by_cases hdv : (validate_url env now (item.url.getD ("")) true false false dc hc).1.dns_valid = true
        · simp only [hdv, if_true]
          refine ih _ _ _ ?_
          intro r hr
          rcases List.mem_append.mp hr with hr | hr
          · exact hacc r hr
          · rw [List.mem_singleton] at hr
            subst hr
            dsimp only
            rw [validate_url_dnsonly_dns_imp_structure env now (item.url.getD ("")) dc hc hdv,
              validate_url_dnsonly_http_false env now (item.url.getD ("")) dc hc]
        · simp only [hdv]
          simpa [Bool.not_eq_true] using ih _ _ acc hacc
      · simp only [hsv]
        simpa [Bool.not_eq_true] using ih dc hc acc hacc

/-- C3 (amended): every record emitted by the final formatting loop of
`background_worker` in `app.py` passed structure AND DNS validation
(its stored validation triple is exactly structure-valid, DNS-valid,
HTTP-unchecked); `worker.py` by contrast validates nothing (see the
counterexample). -/
theorem C3_app_formatting_dns_validated (env : NetEnv) (now : Nat) (vendor : String)
    (items : List DataItem) (dc hc : Cache) :
    ∀ r ∈ (appFormatResults env now vendor items dc hc).1,
      r.validation = some ⟨true, true, false⟩ :=
  appFormatLoop_validation env now vendor items dc hc [] (by simp)

/-- Witness for `C3_app_formatting_dns_validated`: the record emitted
for `globex.com` under a resolving DNS oracle. -/
theorem C3_app_formatting_dns_validated_witness :
    ((⟨("Acme"), ("Globex"), ("globex.com"), none, none,
      some ⟨true, true, false⟩, none⟩ : ResultRecord)).validation = some ⟨true, true, false⟩ :=
  C3_app_formatting_dns_validated
    ⟨fun _ => DNSOutcome.resolved, fun _ => HTTPOutcome.status 200⟩ 0 ("Acme")
    [⟨some ("Globex"), some ("globex.com"), none, none⟩] [] [] _ (by decide)

/-- C3 counterexample: the final formatting of `process_vendor` in
`worker.py` applies NO URL validation: a record whose URL fails even
structure validation is emitted into the final results. The claim that
every final record passed the minimum validation tier is therefore
false. -/
theorem C3_worker_unvalidated_counterexample :
    processVendorResults ("V") [⟨some ("X"), some ("<<bad"), none, none⟩] [] 20
      = [⟨("V"), ("X"), ("<<bad"), none, none, none, none⟩]
    ∧ (validate_url_structure ("<<bad")).structure_valid = false := by
  constructor
  · decide
  · decide

def itemKey (i : DataItem) : String := lowerStr (i.name.getD (""))

theorem addNonDupItems_inv (items : List DataItem) (st : List DataItem × List String)
    (h1 : st.1.Pairwise (fun a b => itemKey a ≠ itemKey b))
    (h2 : ∀ i ∈ st.1, itemKey i ∈ st.2) :
    (addNonDupItems st items).1.Pairwise (fun a b => itemKey a ≠ itemKey b)
    ∧ ∀ i ∈ (addNonDupItems st items).1, itemKey i ∈ (addNonDupItems st items).2 := by
  induction items generalizing st with
  | nil => exact ⟨h1, h2⟩
  | cons item rest ih =>
    by_cases hmem : lowerStr (item.name.getD ("")) ∈ st.2
    · simpa [addNonDupItems, hmem] using ih st h1 h2
    · simp only [addNonDupItems, hmem, if_false]
      refine ih _ ?_ ?_
      · refine List.pairwise_append.mpr ⟨h1, List.pairwise_singleton _ _, ?_⟩
        intro a ha b hb
        rw [List.mem_singleton] at hb
        subst hb
        intro hk
        have hin := h2 a ha
        rw [hk] at hin
        exact hmem hin
      · intro i hi
        rcases List.mem_append.mp hi with hi | hi
        · exact List.mem_cons_of_mem _ (h2 i hi)
        · rw [List.mem_singleton] at hi
          subst hi
          exact List.mem_cons_self _ _

/-- C6 (amended): the cross-source merge of `process_vendor`
deduplicates case-insensitively — the output has pairwise distinct
lower-cased names — provided the initially copied vendor-site list
itself has pairwise distinct normalized names (duplicates inside that
seed list are never removed by the merge).  The first record
encountered always wins; confidence never triggers replacement (see
the counterexample).  In the fallback path the dedup key is instead the
exact raw name, last record wins. -/
theorem C6_merge_dedup_first_wins (vendorData : List DataItem)
    (sources : List (List DataItem))
    (h : vendorData.Pairwise (fun a b => itemKey a ≠ itemKey b)) :
    (combineData vendorData sources).Pairwise (fun a b => itemKey a ≠ itemKey b) := by
  have key : ∀ (srcs : List (List DataItem)) (st : List DataItem × List String),
      st.1.Pairwise (fun a b => itemKey a ≠ itemKey b) →
      (∀ i ∈ st.1, itemKey i ∈ st.2) →
      (srcs.foldl addNonDupItems st).1.Pairwise (fun a b => itemKey a ≠ itemKey b)
      ∧ ∀ i ∈ (srcs.foldl addNonDupItems st).1, itemKey i ∈ (srcs.foldl addNonDupItems st).2 := by
    intro srcs
    induction srcs with
    | nil => exact fun st h1 h2 => ⟨h1, h2⟩
    | cons src rest ih =>
      intro st h1 h2
      exact ih _ (addNonDupItems_inv src st h1 h2).1 (addNonDupItems_inv src st h1 h2).2
  refine (key sources (vendorData, vendorData.map (fun i => lowerStr (i.name.getD ("")))) h ?_).1
  intro i hi
  have := List.mem_map_of_mem (fun j : DataItem => lowerStr (j.name.getD (""))) hi
  simpa [itemKey] using this

/-- Witness for `C6_merge_dedup_first_wins`: merging `Globex` with a
later, higher-confidence `globex` yields pairwise-distinct normalized
names. -/
theorem C6_merge_dedup_first_wins_witness :
    (combineData [⟨some ("Globex"), some ("globex.com"), none, some 0⟩]
      [[⟨some ("globex"), some ("globex.com"), none, some 1⟩]]).Pairwise
      (fun a b => itemKey a ≠ itemKey b) :=
  C6_merge_dedup_first_wins _ _ (by decide)

/-- C6 counterexample: a later record for the same normalized name with
materially higher confidence (1 versus 0) does NOT replace the first
record — the merge keeps the first record unconditionally, so the
claim's replacement clause is false. -/
theorem C6_confidence_replacement_counterexample :
    combineData [⟨some ("Globex"), some ("globex.com"), none, some 0⟩]
      [[⟨some ("globex"), some ("globex.com"), none, some 1⟩]]
      = [⟨some ("Globex"), some ("globex.com"), none, some 0⟩] := by
  decide

/-- C7: the retry ladder makes at most 3 attempts; the timeout of the
attempt with 0-based index `i` is `40 * (i+1)` seconds, the initial
timeout multiplied by the attempt number; a timeout on a non-final
attempt is followed by the next attempt (with its longer timeout); a
non-timeout transport error ends the ladder in fallback immediately
(no further attempt is made); all-non-200 responses exhaust the
attempts and end in fallback; and a non-200 response on a non-final
attempt is followed by the next attempt. -/
theorem C7_retry_ladder (oracle : Nat → AttemptOutcome) :
    (grokCall oracle).1.length ≤ 3
    ∧ (∀ p ∈ (grokCall oracle).1, p.2 = 40 * (p.1 + 1))
    ∧ (∀ i, oracle i = AttemptOutcome.timeout → i + 1 < 3 →
        (i, 40 * (i + 1)) ∈ (grokCall oracle).1 →
        (i + 1, 40 * (i + 2)) ∈ (grokCall oracle).1)
    ∧ (∀ i e, oracle i = AttemptOutcome.transportError e →
        (i, 40 * (i + 1)) ∈ (grokCall oracle).1 →
        (grokCall oracle).2 = RetryDisp.fallback
        ∧ (grokCall oracle).1.length = i + 1)
    ∧ ((∀ i, i < 3 → ∃ s body, oracle i = AttemptOutcome.success s body ∧ s ≠ 200) →
        (grokCall oracle).2 = RetryDisp.fallback)
    ∧ (∀ i s body, oracle i = AttemptOutcome.success s body → s ≠ 200 → i + 1 < 3 →
        (i, 40 * (i + 1)) ∈ (grokCall oracle).1 →
        (i + 1, 40 * (i + 2)) ∈ (grokCall oracle).1) := by
  rcases h0 : oracle 0 with ⟨s0, b0⟩ | _ | e0
  · by_cases hs0 : s0 = 200
    · subst hs0
      have hg : grokCall oracle = ([(0, 40)], RetryDisp.response 200 b0) := by
        simp [grokCall, grokRetryLoop, h0]
      rw [hg]
      dsimp only
      refine ⟨by decide, by decide, ?_, ?_, ?_, ?_⟩
      · intro i hti hlt hmem
        simp only [List.mem_cons, List.mem_singleton, Prod.mk.injEq, List.not_mem_nil, or_false] at hmem
        rcases hmem with ⟨rfl, -⟩
        · rw [h0] at hti
          exact AttemptOutcome.noConfusion hti
      · intro i e hte hmem
        simp only [List.mem_cons, List.mem_singleton, Prod.mk.injEq, List.not_mem_nil, or_false] at hmem
        rcases hmem with ⟨rfl, -⟩
        · rw [h0] at hte
          exact AttemptOutcome.noConfusion hte
      · intro hfail
        obtain ⟨s, body, hsb, hne⟩ := hfail 0 (by decide)
        rw [h0] at hsb
        obtain ⟨rfl, -⟩ := AttemptOutcome.success.inj hsb
        exact absurd rfl hne
      · intro i s body hsb hne hlt hmem
        simp only [List.mem_cons, List.mem_singleton, Prod.mk.injEq, List.not_mem_nil, or_false] at hmem
        rcases hmem with ⟨rfl, -⟩
        · rw [h0] at hsb
          obtain ⟨h200, -⟩ := AttemptOutcome.success.inj hsb
          exact absurd h200.symm hne
    · -- non-200 response: retry
      rcases h1 : oracle 1 with ⟨s1, b1⟩ | _ | e1
      · by_cases hs1 : s1 = 200
        · subst hs1
          have hg : grokCall oracle = ([(0, 40), (1, 80)], RetryDisp.response 200 b1) := by
            simp [grokCall, grokRetryLoop, h0, hs0, h1]
          rw [hg]
          dsimp only
          refine ⟨by decide, by decide, ?_, ?_, ?_, ?_⟩
          · intro i hti hlt hmem
            simp only [List.mem_cons, List.mem_singleton, Prod.mk.injEq, List.not_mem_nil, or_false] at hmem
            rcases hmem with ⟨rfl, -⟩ | ⟨rfl, -⟩
            · rw [h0] at hti
              exact AttemptOutcome.noConfusion hti
            · rw [h1] at hti
              exact AttemptOutcome.noConfusion hti
          · intro i e hte hmem
            simp only [List.mem_cons, List.mem_singleton, Prod.mk.injEq, List.not_mem_nil, or_false] at hmem
            rcases hmem with ⟨rfl, -⟩ | ⟨rfl, -⟩
            · rw [h0] at hte
              exact AttemptOutcome.noConfusion hte
            · rw [h1] at hte
              exact AttemptOutcome.noConfusion hte
          · intro hfail
            obtain ⟨s, body, hsb, hne⟩ := hfail 1 (by decide)
            rw [h1] at hsb
            obtain ⟨rfl, -⟩ := AttemptOutcome.success.inj hsb
            exact absurd rfl hne
          · intro i s body hsb hne hlt hmem
            simp only [List.mem_cons, List.mem_singleton, Prod.mk.injEq, List.not_mem_nil, or_false] at hmem
            rcases hmem with ⟨rfl, -⟩ | ⟨rfl, -⟩
            · exact (by decide)
            · rw [h1] at hsb
              obtain ⟨h200, -⟩ := AttemptOutcome.success.inj hsb
              exact absurd h200.symm hne
        · -- non-200 response: retry
          rcases h2 : oracle 2 with ⟨s2, b2⟩ | _ | e2
          · by_cases hs2 : s2 = 200
            · subst hs2
              have hg : grokCall oracle = ([(0, 40), (1, 80), (2, 120)], RetryDisp.response 200 b2) := by
                simp [grokCall, grokRetryLoop, h0, hs0, h1, hs1, h2]
              rw [hg]
              dsimp only
              refine ⟨by decide, by decide, ?_, ?_, ?_, ?_⟩
              · intro i hti hlt hmem
                simp only [List.mem_cons, List.mem_singleton, Prod.mk.injEq, List.not_mem_nil, or_false] at hmem
                rcases hmem with ⟨rfl, -⟩ | ⟨rfl, -⟩ | ⟨rfl, -⟩
                · rw [h0] at hti
                  exact AttemptOutcome.noConfusion hti
                · rw [h1] at hti
                  exact AttemptOutcome.noConfusion hti
                · exact absurd hlt (by decide)
              · intro i e hte hmem
                simp only [List.mem_cons, List.mem_singleton, Prod.mk.injEq, List.not_mem_nil, or_false] at hmem
                rcases hmem with ⟨rfl, -⟩ | ⟨rfl, -⟩ | ⟨rfl, -⟩
                · rw [h0] at hte
                  exact AttemptOutcome.noConfusion hte
                · rw [h1] at hte
                  exact AttemptOutcome.noConfusion hte
                · rw [h2] at hte
                  exact AttemptOutcome.noConfusion hte
              · intro hfail
                obtain ⟨s, body, hsb, hne⟩ := hfail 2 (by decide)
                rw [h2] at hsb
                obtain ⟨rfl, -⟩ := AttemptOutcome.success.inj hsb
                exact absurd rfl hne
              · intro i s body hsb hne hlt hmem
                simp only [List.mem_cons, List.mem_singleton, Prod.mk.injEq, List.not_mem_nil, or_false] at hmem
                rcases hmem with ⟨rfl, -⟩ | ⟨rfl, -⟩ | ⟨rfl, -⟩
                · exact (by decide)
                · exact (by decide)
                · exact absurd hlt (by decide)
            · -- non-200 response on the last attempt
              have hg : grokCall oracle = ([(0, 40), (1, 80), (2, 120)], RetryDisp.fallback) := by
                simp [grokCall, grokRetryLoop, h0, hs0, h1, hs1, h2, hs2]
              rw [hg]
              dsimp only
              refine ⟨by decide, by decide, ?_, ?_, fun _ => rfl, ?_⟩
              · intro i hti hlt hmem
                simp only [List.mem_cons, List.mem_singleton, Prod.mk.injEq, List.not_mem_nil, or_false] at hmem
                rcases hmem with ⟨rfl, -⟩ | ⟨rfl, -⟩ | ⟨rfl, -⟩
                · rw [h0] at hti
                  exact AttemptOutcome.noConfusion hti
                · rw [h1] at hti
                  exact AttemptOutcome.noConfusion hti
                · exact absurd hlt (by decide)
              · intro i e hte hmem
                simp only [List.mem_cons, List.mem_singleton, Prod.mk.injEq, List.not_mem_nil, or_false] at hmem
                rcases hmem with ⟨rfl, -⟩ | ⟨rfl, -⟩ | ⟨rfl, -⟩
                · rw [h0] at hte
                  exact AttemptOutcome.noConfusion hte
                · rw [h1] at hte
                  exact AttemptOutcome.noConfusion hte
                · rw [h2] at hte
                  exact AttemptOutcome.noConfusion hte
              · intro i s body hsb hne hlt hmem
                simp only [List.mem_cons, List.mem_singleton, Prod.mk.injEq, List.not_mem_nil, or_false] at hmem
                rcases hmem with ⟨rfl, -⟩ | ⟨rfl, -⟩ | ⟨rfl, -⟩
                · exact (by decide)
                · exact (by decide)
                · exact absurd hlt (by decide)
          · -- timeout on the last attempt
            have hg : grokCall oracle = ([(0, 40), (1, 80), (2, 120)], RetryDisp.fallback) := by
              simp [grokCall, grokRetryLoop, h0, hs0, h1, hs1, h2]
            rw [hg]
            dsimp only
            refine ⟨by decide, by decide, ?_, ?_, fun _ => rfl, ?_⟩
            · intro i hti hlt hmem
              simp only [List.mem_cons, List.mem_singleton, Prod.mk.injEq, List.not_mem_nil, or_false] at hmem
              rcases hmem with ⟨rfl, -⟩ | ⟨rfl, -⟩ | ⟨rfl, -⟩
              · rw [h0] at hti
                exact AttemptOutcome.noConfusion hti
              · rw [h1] at hti
                exact AttemptOutcome.noConfusion hti
              · exact absurd hlt (by decide)
            · intro i e hte hmem
              simp only [List.mem_cons, List.mem_singleton, Prod.mk.injEq, List.not_mem_nil, or_false] at hmem
              rcases hmem with ⟨rfl, -⟩ | ⟨rfl, -⟩ | ⟨rfl, -⟩
              · rw [h0] at hte
                exact AttemptOutcome.noConfusion hte
              · rw [h1] at hte
                exact AttemptOutcome.noConfusion hte
              · rw [h2] at hte
                exact AttemptOutcome.noConfusion hte
            · intro i s body hsb hne hlt hmem
              simp only [List.mem_cons, List.mem_singleton, Prod.mk.injEq, List.not_mem_nil, or_false] at hmem
              rcases hmem with ⟨rfl, -⟩ | ⟨rfl, -⟩ | ⟨rfl, -⟩
              · exact (by decide)
              · exact (by decide)
              · exact absurd hlt (by decide)
          · -- transport error: immediate fallback
            have hg : grokCall oracle = ([(0, 40), (1, 80), (2, 120)], RetryDisp.fallback) := by
              simp [grokCall, grokRetryLoop, h0, hs0, h1, hs1, h2]
            rw [hg]
            dsimp only
            refine ⟨by decide, by decide, ?_, ?_, fun _ => rfl, ?_⟩
            · intro i hti hlt hmem
              simp only [List.mem_cons, List.mem_singleton, Prod.mk.injEq, List.not_mem_nil, or_false] at hmem
              rcases hmem with ⟨rfl, -⟩ | ⟨rfl, -⟩ | ⟨rfl, -⟩
              · rw [h0] at hti
                exact AttemptOutcome.noConfusion hti
              · rw [h1] at hti
                exact AttemptOutcome.noConfusion hti
              · exact absurd hlt (by decide)
            · intro i e hte hmem
              simp only [List.mem_cons, List.mem_singleton, Prod.mk.injEq, List.not_mem_nil, or_false] at hmem
              rcases hmem with ⟨rfl, -⟩ | ⟨rfl, -⟩ | ⟨rfl, -⟩
              · rw [h0] at hte
                exact AttemptOutcome.noConfusion hte
              · rw [h1] at hte
                exact AttemptOutcome.noConfusion hte
              · exact ⟨rfl, by decide⟩
            · intro i s body hsb hne hlt hmem
              simp only [List.mem_cons, List.mem_singleton, Prod.mk.injEq, List.not_mem_nil, or_false] at hmem
              rcases hmem with ⟨rfl, -⟩ | ⟨rfl, -⟩ | ⟨rfl, -⟩
              · exact (by decide)
              · exact (by decide)
              · exact absurd hlt (by decide)
      · -- timeout: retry
        rcases h2 : oracle 2 with ⟨s2, b2⟩ | _ | e2
        · by_cases hs2 : s2 = 200
          · subst hs2
            have hg : grokCall oracle = ([(0, 40), (1, 80), (2, 120)], RetryDisp.response 200 b2) := by
              simp [grokCall, grokRetryLoop, h0, hs0, h1, h2]
            rw [hg]
            dsimp only
            refine ⟨by decide, by decide, ?_, ?_, ?_, ?_⟩
            · intro i hti hlt hmem
              simp only [List.mem_cons, List.mem_singleton, Prod.mk.injEq, List.not_mem_nil, or_false] at hmem
              rcases hmem with ⟨rfl, -⟩ | ⟨rfl, -⟩ | ⟨rfl, -⟩
              · rw [h0] at hti
                exact AttemptOutcome.noConfusion hti
              · exact (by decide)
              · exact absurd hlt (by decide)
            · intro i e hte hmem
              simp only [List.mem_cons, List.mem_singleton, Prod.mk.injEq, List.not_mem_nil, or_false] at hmem
              rcases hmem with ⟨rfl, -⟩ | ⟨rfl, -⟩ | ⟨rfl, -⟩
              · rw [h0] at hte
                exact AttemptOutcome.noConfusion hte
              · rw [h1] at hte
                exact AttemptOutcome.noConfusion hte
              · rw [h2] at hte
                exact AttemptOutcome.noConfusion hte
            · intro hfail
              obtain ⟨s, body, hsb, hne⟩ := hfail 2 (by decide)
              rw [h2] at hsb
              obtain ⟨rfl, -⟩ := AttemptOutcome.success.inj hsb
              exact absurd rfl hne
            · intro i s body hsb hne hlt hmem
              simp only [List.mem_cons, List.mem_singleton, Prod.mk.injEq, List.not_mem_nil, or_false] at hmem
              rcases hmem with ⟨rfl, -⟩ | ⟨rfl, -⟩ | ⟨rfl, -⟩
              · exact (by decide)
              · rw [h1] at hsb
                exact AttemptOutcome.noConfusion hsb
              · exact absurd hlt (by decide)
          · -- non-200 response on the last attempt
            have hg : grokCall oracle = ([(0, 40), (1, 80), (2, 120)], RetryDisp.fallback) := by
              simp [grokCall, grokRetryLoop, h0, hs0, h1, h2, hs2]
            rw [hg]
            dsimp only
            refine ⟨by decide, by decide, ?_, ?_, fun _ => rfl, ?_⟩
            · intro i hti hlt hmem
              simp only [List.mem_cons, List.mem_singleton, Prod.mk.injEq, List.not_mem_nil, or_false] at hmem
              rcases hmem with ⟨rfl, -⟩ | ⟨rfl, -⟩ | ⟨rfl, -⟩
              · rw [h0] at hti
                exact AttemptOutcome.noConfusion hti
              · exact (by decide)
              · exact absurd hlt (by decide)
            · intro i e hte hmem
              simp only [List.mem_cons, List.mem_singleton, Prod.mk.injEq, List.not_mem_nil, or_false] at hmem
              rcases hmem with ⟨rfl, -⟩ | ⟨rfl, -⟩ | ⟨rfl, -⟩
              · rw [h0] at hte
                exact AttemptOutcome.noConfusion hte
              · rw [h1] at hte
                exact AttemptOutcome.noConfusion hte
              · rw [h2] at hte
                exact AttemptOutcome.noConfusion hte
            · intro i s body hsb hne hlt hmem
              simp only [List.mem_cons, List.mem_singleton, Prod.mk.injEq, List.not_mem_nil, or_false] at hmem
              rcases hmem with ⟨rfl, -⟩ | ⟨rfl, -⟩ | ⟨rfl, -⟩
              · exact (by decide)
              · rw [h1] at hsb
                exact AttemptOutcome.noConfusion hsb
              · exact absurd hlt (by decide)
        · -- timeout on the last attempt
          have hg : grokCall oracle = ([(0, 40), (1, 80), (2, 120)], RetryDisp.fallback) := by
            simp [grokCall, grokRetryLoop, h0, hs0, h1, h2]
          rw [hg]
          dsimp only
          refine ⟨by decide, by decide, ?_, ?_, fun _ => rfl, ?_⟩
          · intro i hti hlt hmem
            simp only [List.mem_cons, List.mem_singleton, Prod.mk.injEq, List.not_mem_nil, or_false] at hmem
            rcases hmem with ⟨rfl, -⟩ | ⟨rfl, -⟩ | ⟨rfl, -⟩
            · rw [h0] at hti
              exact AttemptOutcome.noConfusion hti
            · exact (by decide)
            · exact absurd hlt (by decide)
          · intro i e hte hmem
            simp only [List.mem_cons, List.mem_singleton, Prod.mk.injEq, List.not_mem_nil, or_false] at hmem
            rcases hmem with ⟨rfl, -⟩ | ⟨rfl, -⟩ | ⟨rfl, -⟩
            · rw [h0] at hte
              exact AttemptOutcome.noConfusion hte
            · rw [h1] at hte
              exact AttemptOutcome.noConfusion hte
            · rw [h2] at hte
              exact AttemptOutcome.noConfusion hte
          · intro i s body hsb hne hlt hmem
            simp only [List.mem_cons, List.mem_singleton, Prod.mk.injEq, List.not_mem_nil, or_false] at hmem
            rcases hmem with ⟨rfl, -⟩ | ⟨rfl, -⟩ | ⟨rfl, -⟩
            · exact (by decide)
            · rw [h1] at hsb
              exact AttemptOutcome.noConfusion hsb
            · exact absurd hlt (by decide)
        · -- transport error: immediate fallback
          have hg : grokCall oracle = ([(0, 40), (1, 80), (2, 120)], RetryDisp.fallback) := by
            simp [grokCall, grokRetryLoop, h0, hs0, h1, h2]
          rw [hg]
          dsimp only
          refine ⟨by decide, by decide, ?_, ?_, fun _ => rfl, ?_⟩
          · intro i hti hlt hmem
            simp only [List.mem_cons, List.mem_singleton, Prod.mk.injEq, List.not_mem_nil, or_false] at hmem
            rcases hmem with ⟨rfl, -⟩ | ⟨rfl, -⟩ | ⟨rfl, -⟩
            · rw [h0] at hti
              exact AttemptOutcome.noConfusion hti
            · exact (by decide)
            · exact absurd hlt (by decide)
          · intro i e hte hmem
            simp only [List.mem_cons, List.mem_singleton, Prod.mk.injEq, List.not_mem_nil, or_false] at hmem
            rcases hmem with ⟨rfl, -⟩ | ⟨rfl, -⟩ | ⟨rfl, -⟩
            · rw [h0] at hte
              exact AttemptOutcome.noConfusion hte
            · rw [h1] at hte
              exact AttemptOutcome.noConfusion hte
            · exact ⟨rfl, by decide⟩
          · intro i s body hsb hne hlt hmem
            simp only [List.mem_cons, List.mem_singleton, Prod.mk.injEq, List.not_mem_nil, or_false] at hmem
            rcases hmem with ⟨rfl, -⟩ | ⟨rfl, -⟩ | ⟨rfl, -⟩
            · exact (by decide)
            · rw [h1] at hsb
              exact AttemptOutcome.noConfusion hsb
            · exact absurd hlt (by decide)
      · -- transport error: immediate fallback
        have hg : grokCall oracle = ([(0, 40), (1, 80)], RetryDisp.fallback) := by
          simp [grokCall, grokRetryLoop, h0, hs0, h1]
        rw [hg]
        dsimp only
        refine ⟨by decide, by decide, ?_, ?_, fun _ => rfl, ?_⟩
        · intro i hti hlt hmem
          simp only [List.mem_cons, List.mem_singleton, Prod.mk.injEq, List.not_mem_nil, or_false] at hmem
          rcases hmem with ⟨rfl, -⟩ | ⟨rfl, -⟩
          · rw [h0] at hti
            exact AttemptOutcome.noConfusion hti
          · rw [h1] at hti
            exact AttemptOutcome.noConfusion hti
        · intro i e hte hmem
          simp only [List.mem_cons, List.mem_singleton, Prod.mk.injEq, List.not_mem_nil, or_false] at hmem
          rcases hmem with ⟨rfl, -⟩ | ⟨rfl, -⟩
          · rw [h0] at hte
            exact AttemptOutcome.noConfusion hte
          · exact ⟨rfl, by decide⟩
        · intro i s body hsb hne hlt hmem
          simp only [List.mem_cons, List.mem_singleton, Prod.mk.injEq, List.not_mem_nil, or_false] at hmem
          rcases hmem with ⟨rfl, -⟩ | ⟨rfl, -⟩
          · exact (by decide)
          · rw [h1] at hsb
            exact AttemptOutcome.noConfusion hsb
  · -- timeout: retry
    rcases h1 : oracle 1 with ⟨s1, b1⟩ | _ | e1
    · by_cases hs1 : s1 = 200
      · subst hs1
        have hg : grokCall oracle = ([(0, 40), (1, 80)], RetryDisp.response 200 b1) := by
          simp [grokCall, grokRetryLoop, h0, h1]
        rw [hg]
        dsimp only
        refine ⟨by decide, by decide, ?_, ?_, ?_, ?_⟩
        · intro i hti hlt hmem
          simp only [List.mem_cons, List.mem_singleton, Prod.mk.injEq, List.not_mem_nil, or_false] at hmem
          rcases hmem with ⟨rfl, -⟩ | ⟨rfl, -⟩
          · exact (by decide)
          · rw [h1] at hti
            exact AttemptOutcome.noConfusion hti
        · intro i e hte hmem
          simp only [List.mem_cons, List.mem_singleton, Prod.mk.injEq, List.not_mem_nil, or_false] at hmem
          rcases hmem with ⟨rfl, -⟩ | ⟨rfl, -⟩
          · rw [h0] at hte
            exact AttemptOutcome.noConfusion hte
          · rw [h1] at hte
            exact AttemptOutcome.noConfusion hte
        · intro hfail
          obtain ⟨s, body, hsb, hne⟩ := hfail 1 (by decide)
          rw [h1] at hsb
          obtain ⟨rfl, -⟩ := AttemptOutcome.success.inj hsb
          exact absurd rfl hne
        · intro i s body hsb hne hlt hmem
          simp only [List.mem_cons, List.mem_singleton, Prod.mk.injEq, List.not_mem_nil, or_false] at hmem
          rcases hmem with ⟨rfl, -⟩ | ⟨rfl, -⟩
          · rw [h0] at hsb
            exact AttemptOutcome.noConfusion hsb
          · rw [h1] at hsb
            obtain ⟨h200, -⟩ := AttemptOutcome.success.inj hsb
            exact absurd h200.symm hne
      · -- non-200 response: retry
        rcases h2 : oracle 2 with ⟨s2, b2⟩ | _ | e2
        · by_cases hs2 : s2 = 200
          · subst hs2
            have hg : grokCall oracle = ([(0, 40), (1, 80), (2, 120)], RetryDisp.response 200 b2) := by
              simp [grokCall, grokRetryLoop, h0, h1, hs1, h2]
            rw [hg]
            dsimp only
            refine ⟨by decide, by decide, ?_, ?_, ?_, ?_⟩
            · intro i hti hlt hmem
              simp only [List.mem_cons, List.mem_singleton, Prod.mk.injEq, List.not_mem_nil, or_false] at hmem
              rcases hmem with ⟨rfl, -⟩ | ⟨rfl, -⟩ | ⟨rfl, -⟩
              · exact (by decide)
              · rw [h1] at hti
                exact AttemptOutcome.noConfusion hti
              · exact absurd hlt (by decide)
            · intro i e hte hmem
              simp only [List.mem_cons, List.mem_singleton, Prod.mk.injEq, List.not_mem_nil, or_false] at hmem
              rcases hmem with ⟨rfl, -⟩ | ⟨rfl, -⟩ | ⟨rfl, -⟩
              · rw [h0] at hte
                exact AttemptOutcome.noConfusion hte
              · rw [h1] at hte
                exact AttemptOutcome.noConfusion hte
              · rw [h2] at hte
                exact AttemptOutcome.noConfusion hte
            · intro hfail
              obtain ⟨s, body, hsb, hne⟩ := hfail 2 (by decide)
              rw [h2] at hsb
              obtain ⟨rfl, -⟩ := AttemptOutcome.success.inj hsb
              exact absurd rfl hne
            · intro i s body hsb hne hlt hmem
              simp only [List.mem_cons, List.mem_singleton, Prod.mk.injEq, List.not_mem_nil, or_false] at hmem
              rcases hmem with ⟨rfl, -⟩ | ⟨rfl, -⟩ | ⟨rfl, -⟩
              · rw [h0] at hsb
                exact AttemptOutcome.noConfusion hsb
              · exact (by decide)
              · exact absurd hlt (by decide)
          · -- non-200 response on the last attempt
            have hg : grokCall oracle = ([(0, 40), (1, 80), (2, 120)], RetryDisp.fallback) := by
              simp [grokCall, grokRetryLoop, h0, h1, hs1, h2, hs2]
            rw [hg]
            dsimp only
            refine ⟨by decide, by decide, ?_, ?_, fun _ => rfl, ?_⟩
            · intro i hti hlt hmem
              simp only [List.mem_cons, List.mem_singleton, Prod.mk.injEq, List.not_mem_nil, or_false] at hmem
              rcases hmem with ⟨rfl, -⟩ | ⟨rfl, -⟩ | ⟨rfl, -⟩
              · exact (by decide)
              · rw [h1] at hti
                exact AttemptOutcome.noConfusion hti
              · exact absurd hlt (by decide)
            · intro i e hte hmem
              simp only [List.mem_cons, List.mem_singleton, Prod.mk.injEq, List.not_mem_nil, or_false] at hmem
              rcases hmem with ⟨rfl, -⟩ | ⟨rfl, -⟩ | ⟨rfl, -⟩
              · rw [h0] at hte
                exact AttemptOutcome.noConfusion hte
              · rw [h1] at hte
                exact AttemptOutcome.noConfusion hte
              · rw [h2] at hte
                exact AttemptOutcome.noConfusion hte
            · intro i s body hsb hne hlt hmem
              simp only [List.mem_cons, List.mem_singleton, Prod.mk.injEq, List.not_mem_nil, or_false] at hmem
              rcases hmem with ⟨rfl, -⟩ | ⟨rfl, -⟩ | ⟨rfl, -⟩
              · rw [h0] at hsb
                exact AttemptOutcome.noConfusion hsb
              · exact (by decide)
              · exact absurd hlt (by decide)
        · -- timeout on the last attempt
          have hg : grokCall oracle = ([(0, 40), (1, 80), (2, 120)], RetryDisp.fallback) := by
            simp [grokCall, grokRetryLoop, h0, h1, hs1, h2]
          rw [hg]
          dsimp only
          refine ⟨by decide, by decide, ?_, ?_, fun _ => rfl, ?_⟩
          · intro i hti hlt hmem
            simp only [List.mem_cons, List.mem_singleton, Prod.mk.injEq, List.not_mem_nil, or_false] at hmem
            rcases hmem with ⟨rfl, -⟩ | ⟨rfl, -⟩ | ⟨rfl, -⟩
            · exact (by decide)
            · rw [h1] at hti
              exact AttemptOutcome.noConfusion hti
            · exact absurd hlt (by decide)
          · intro i e hte hmem
            simp only [List.mem_cons, List.mem_singleton, Prod.mk.injEq, List.not_mem_nil, or_false] at hmem
            rcases hmem with ⟨rfl, -⟩ | ⟨rfl, -⟩ | ⟨rfl, -⟩
            · rw [h0] at hte
              exact AttemptOutcome.noConfusion hte
            · rw [h1] at hte
              exact AttemptOutcome.noConfusion hte
            · rw [h2] at hte
              exact AttemptOutcome.noConfusion hte
          · intro i s body hsb hne hlt hmem
            simp only [List.mem_cons, List.mem_singleton, Prod.mk.injEq, List.not_mem_nil, or_false] at hmem
            rcases hmem with ⟨rfl, -⟩ | ⟨rfl, -⟩ | ⟨rfl, -⟩
            · rw [h0] at hsb
              exact AttemptOutcome.noConfusion hsb
            · exact (by decide)
            · exact absurd hlt (by decide)
        · -- transport error: immediate fallback
          have hg : grokCall oracle = ([(0, 40), (1, 80), (2, 120)], RetryDisp.fallback) := by
            simp [grokCall, grokRetryLoop, h0, h1, hs1, h2]
          rw [hg]
          dsimp only
          refine ⟨by decide, by decide, ?_, ?_, fun _ => rfl, ?_⟩
          · intro i hti hlt hmem
            simp only [List.mem_cons, List.mem_singleton, Prod.mk.injEq, List.not_mem_nil, or_false] at hmem
            rcases hmem with ⟨rfl, -⟩ | ⟨rfl, -⟩ | ⟨rfl, -⟩
            · exact (by decide)
            · rw [h1] at hti
              exact AttemptOutcome.noConfusion hti
            · exact absurd hlt (by decide)
          · intro i e hte hmem
            simp only [List.mem_cons, List.mem_singleton, Prod.mk.injEq, List.not_mem_nil, or_false] at hmem
            rcases hmem with ⟨rfl, -⟩ | ⟨rfl, -⟩ | ⟨rfl, -⟩
            · rw [h0] at hte
              exact AttemptOutcome.noConfusion hte
            · rw [h1] at hte
              exact AttemptOutcome.noConfusion hte
            · exact ⟨rfl, by decide⟩
          · intro i s body hsb hne hlt hmem
            simp only [List.mem_cons, List.mem_singleton, Prod.mk.injEq, List.not_mem_nil, or_false] at hmem
            rcases hmem with ⟨rfl, -⟩ | ⟨rfl, -⟩ | ⟨rfl, -⟩
            · rw [h0] at hsb
              exact AttemptOutcome.noConfusion hsb
            · exact (by decide)
            · exact absurd hlt (by decide)
    · -- timeout: retry
      rcases h2 : oracle 2 with ⟨s2, b2⟩ | _ | e2
      · by_cases hs2 : s2 = 200
        · subst hs2
          have hg : grokCall oracle = ([(0, 40), (1, 80), (2, 120)], RetryDisp.response 200 b2) := by
            simp [grokCall, grokRetryLoop, h0, h1, h2]
          rw [hg]
          dsimp only
          refine ⟨by decide, by decide, ?_, ?_, ?_, ?_⟩
          · intro i hti hlt hmem
            simp only [List.mem_cons, List.mem_singleton, Prod.mk.injEq, List.not_mem_nil, or_false] at hmem
            rcases hmem with ⟨rfl, -⟩ | ⟨rfl, -⟩ | ⟨rfl, -⟩
            · exact (by decide)
            · exact (by decide)
            · exact absurd hlt (by decide)
          · intro i e hte hmem
            simp only [List.mem_cons, List.mem_singleton, Prod.mk.injEq, List.not_mem_nil, or_false] at hmem
            rcases hmem with ⟨rfl, -⟩ | ⟨rfl, -⟩ | ⟨rfl, -⟩
            · rw [h0] at hte
              exact AttemptOutcome.noConfusion hte
            · rw [h1] at hte
              exact AttemptOutcome.noConfusion hte
            · rw [h2] at hte
              exact AttemptOutcome.noConfusion hte
          · intro hfail
            obtain ⟨s, body, hsb, hne⟩ := hfail 2 (by decide)
            rw [h2] at hsb
            obtain ⟨rfl, -⟩ := AttemptOutcome.success.inj hsb
            exact absurd rfl hne
          · intro i s body hsb hne hlt hmem
            simp only [List.mem_cons, List.mem_singleton, Prod.mk.injEq, List.not_mem_nil, or_false] at hmem
            rcases hmem with ⟨rfl, -⟩ | ⟨rfl, -⟩ | ⟨rfl, -⟩
            · rw [h0] at hsb
              exact AttemptOutcome.noConfusion hsb
            · rw [h1] at hsb
              exact AttemptOutcome.noConfusion hsb
            · exact absurd hlt (by decide)
        · -- non-200 response on the last attempt
          have hg : grokCall oracle = ([(0, 40), (1, 80), (2, 120)], RetryDisp.fallback) := by
            simp [grokCall, grokRetryLoop, h0, h1, h2, hs2]
          rw [hg]
          dsimp only
          refine ⟨by decide, by decide, ?_, ?_, fun _ => rfl, ?_⟩
          · intro i hti hlt hmem
            simp only [List.mem_cons, List.mem_singleton, Prod.mk.injEq, List.not_mem_nil, or_false] at hmem
            rcases hmem with ⟨rfl, -⟩ | ⟨rfl, -⟩ | ⟨rfl, -⟩
            · exact (by decide)
            · exact (by decide)
            · exact absurd hlt (by decide)
          · intro i e hte hmem
            simp only [List.mem_cons, List.mem_singleton, Prod.mk.injEq, List.not_mem_nil, or_false] at hmem
            rcases hmem with ⟨rfl, -⟩ | ⟨rfl, -⟩ | ⟨rfl, -⟩
            · rw [h0] at hte
              exact AttemptOutcome.noConfusion hte
            · rw [h1] at hte
              exact AttemptOutcome.noConfusion hte
            · rw [h2] at hte
              exact AttemptOutcome.noConfusion hte
          · intro i s body hsb hne hlt hmem
            simp only [List.mem_cons, List.mem_singleton, Prod.mk.injEq, List.not_mem_nil, or_false] at hmem
            rcases hmem with ⟨rfl, -⟩ | ⟨rfl, -⟩ | ⟨rfl, -⟩
            · rw [h0] at hsb
              exact AttemptOutcome.noConfusion hsb
            · rw [h1] at hsb
              exact AttemptOutcome.noConfusion hsb
            · exact absurd hlt (by decide)
      · -- timeout on the last attempt
        have hg : grokCall oracle = ([(0, 40), (1, 80), (2, 120)], RetryDisp.fallback) := by
          simp [grokCall, grokRetryLoop, h0, h1, h2]
        rw [hg]
        dsimp only
        refine ⟨by decide, by decide, ?_, ?_, fun _ => rfl, ?_⟩
        · intro i hti hlt hmem
          simp only [List.mem_cons, List.mem_singleton, Prod.mk.injEq, List.not_mem_nil, or_false] at hmem
          rcases hmem with ⟨rfl, -⟩ | ⟨rfl, -⟩ | ⟨rfl, -⟩
          · exact (by decide)
          · exact (by decide)
          · exact absurd hlt (by decide)
        · intro i e hte hmem
          simp only [List.mem_cons, List.mem_singleton, Prod.mk.injEq, List.not_mem_nil, or_false] at hmem
          rcases hmem with ⟨rfl, -⟩ | ⟨rfl, -⟩ | ⟨rfl, -⟩
          · rw [h0] at hte
            exact AttemptOutcome.noConfusion hte
          · rw [h1] at hte
            exact AttemptOutcome.noConfusion hte
          · rw [h2] at hte
            exact AttemptOutcome.noConfusion hte
        · intro i s body hsb hne hlt hmem
          simp only [List.mem_cons, List.mem_singleton, Prod.mk.injEq, List.not_mem_nil, or_false] at hmem
          rcases hmem with ⟨rfl, -⟩ | ⟨rfl, -⟩ | ⟨rfl, -⟩
          · rw [h0] at hsb
            exact AttemptOutcome.noConfusion hsb
          · rw [h1] at hsb
            exact AttemptOutcome.noConfusion hsb
          · exact absurd hlt (by decide)
      · -- transport error: immediate fallback
        have hg : grokCall oracle = ([(0, 40), (1, 80), (2, 120)], RetryDisp.fallback) := by
          simp [grokCall, grokRetryLoop, h0, h1, h2]
        rw [hg]
        dsimp only
        refine ⟨by decide, by decide, ?_, ?_, fun _ => rfl, ?_⟩
        · intro i hti hlt hmem
          simp only [List.mem_cons, List.mem_singleton, Prod.mk.injEq, List.not_mem_nil, or_false] at hmem
          rcases hmem with ⟨rfl, -⟩ | ⟨rfl, -⟩ | ⟨rfl, -⟩
          · exact (by decide)
          · exact (by decide)
          · exact absurd hlt (by decide)
        · intro i e hte hmem
          simp only [List.mem_cons, List.mem_singleton, Prod.mk.injEq, List.not_mem_nil, or_false] at hmem
          rcases hmem with ⟨rfl, -⟩ | ⟨rfl, -⟩ | ⟨rfl, -⟩
          · rw [h0] at hte
            exact AttemptOutcome.noConfusion hte
          · rw [h1] at hte
            exact AttemptOutcome.noConfusion hte
          · exact ⟨rfl, by decide⟩
        · intro i s body hsb hne hlt hmem
          simp only [List.mem_cons, List.mem_singleton, Prod.mk.injEq, List.not_mem_nil, or_false] at hmem
          rcases hmem with ⟨rfl, -⟩ | ⟨rfl, -⟩ | ⟨rfl, -⟩
          · rw [h0] at hsb
            exact AttemptOutcome.noConfusion hsb
          · rw [h1] at hsb
            exact AttemptOutcome.noConfusion hsb
          · exact absurd hlt (by decide)
    · -- transport error: immediate fallback
      have hg : grokCall oracle = ([(0, 40), (1, 80)], RetryDisp.fallback) := by
        simp [grokCall, grokRetryLoop, h0, h1]
      rw [hg]
      dsimp only
      refine ⟨by decide, by decide, ?_, ?_, fun _ => rfl, ?_⟩
      · intro i hti hlt hmem
        simp only [List.mem_cons, List.mem_singleton, Prod.mk.injEq, List.not_mem_nil, or_false] at hmem
        rcases hmem with ⟨rfl, -⟩ | ⟨rfl, -⟩
        · exact (by decide)
        · rw [h1] at hti
          exact AttemptOutcome.noConfusion hti
      · intro i e hte hmem
        simp only [List.mem_cons, List.mem_singleton, Prod.mk.injEq, List.not_mem_nil, or_false] at hmem
        rcases hmem with ⟨rfl, -⟩ | ⟨rfl, -⟩
        · rw [h0] at hte
          exact AttemptOutcome.noConfusion hte
        · exact ⟨rfl, by decide⟩
      · intro i s body hsb hne hlt hmem
        simp only [List.mem_cons, List.mem_singleton, Prod.mk.injEq, List.not_mem_nil, or_false] at hmem
        rcases hmem with ⟨rfl, -⟩ | ⟨rfl, -⟩
        · rw [h0] at hsb
          exact AttemptOutcome.noConfusion hsb
        · rw [h1] at hsb
          exact AttemptOutcome.noConfusion hsb
  · -- transport error: immediate fallback
    have hg : grokCall oracle = ([(0, 40)], RetryDisp.fallback) := by
      simp [grokCall, grokRetryLoop, h0]
    rw [hg]
    dsimp only
    refine ⟨by decide, by decide, ?_, ?_, fun _ => rfl, ?_⟩
    · intro i hti hlt hmem
      simp only [List.mem_cons, List.mem_singleton, Prod.mk.injEq, List.not_mem_nil, or_false] at hmem
      rcases hmem with ⟨rfl, -⟩
      · rw [h0] at hti
        exact AttemptOutcome.noConfusion hti
    · intro i e hte hmem
      simp only [List.mem_cons, List.mem_singleton, Prod.mk.injEq, List.not_mem_nil, or_false] at hmem
      rcases hmem with ⟨rfl, -⟩
      · exact ⟨rfl, by decide⟩
    · intro i s body hsb hne hlt hmem
      simp only [List.mem_cons, List.mem_singleton, Prod.mk.injEq, List.not_mem_nil, or_false] at hmem
      rcases hmem with ⟨rfl, -⟩
      · rw [h0] at hsb
        exact AttemptOutcome.noConfusion hsb

/-- If no attempt yields a 200 response, the retry ladder ends in
fallback. -/
theorem grokCall_fallback_of_failures (oracle : Nat → AttemptOutcome)
    (hfail : ∀ i, i < 3 → ∀ s body, oracle i = AttemptOutcome.success s body → s ≠ 200) :
    (grokCall oracle).2 = RetryDisp.fallback := by
  rcases h0 : oracle 0 with ⟨s0, b0⟩ | _ | e0
  · have hs0 : ¬ s0 = 200 := hfail 0 (by decide) s0 b0 h0
    rcases h1 : oracle 1 with ⟨s1, b1⟩ | _ | e1
    · have hs1 : ¬ s1 = 200 := hfail 1 (by decide) s1 b1 h1
      rcases h2 : oracle 2 with ⟨s2, b2⟩ | _ | e2
      · have hs2 : ¬ s2 = 200 := hfail 2 (by decide) s2 b2 h2
        simp [grokCall, grokRetryLoop, h0, hs0, h1, hs1, h2, hs2]
      ·
        simp [grokCall, grokRetryLoop, h0, hs0, h1, hs1, h2]
      ·
        simp [grokCall, grokRetryLoop, h0, hs0, h1, hs1, h2]
    ·
      rcases h2 : oracle 2 with ⟨s2, b2⟩ | _ | e2
      · have hs2 : ¬ s2 = 200 := hfail 2 (by decide) s2 b2 h2
        simp [grokCall, grokRetryLoop, h0, hs0, h1, h2, hs2]
      ·
        simp [grokCall, grokRetryLoop, h0, hs0, h1, h2]
      ·
        simp [grokCall, grokRetryLoop, h0, hs0, h1, h2]
    ·
      simp [grokCall, grokRetryLoop, h0, hs0, h1]
  ·
    rcases h1 : oracle 1 with ⟨s1, b1⟩ | _ | e1
    · have hs1 : ¬ s1 = 200 := hfail 1 (by decide) s1 b1 h1
      rcases h2 : oracle 2 with ⟨s2, b2⟩ | _ | e2
      · have hs2 : ¬ s2 = 200 := hfail 2 (by decide) s2 b2 h2
        simp [grokCall, grokRetryLoop, h0, h1, hs1, h2, hs2]
      ·
        simp [grokCall, grokRetryLoop, h0, h1, hs1, h2]
      ·
        simp [grokCall, grokRetryLoop, h0, h1, hs1, h2]
    ·
      rcases h2 : oracle 2 with ⟨s2, b2⟩ | _ | e2
      · have hs2 : ¬ s2 = 200 := hfail 2 (by decide) s2 b2 h2
        simp [grokCall, grokRetryLoop, h0, h1, h2, hs2]
      ·
        simp [grokCall, grokRetryLoop, h0, h1, h2]
      ·
        simp [grokCall, grokRetryLoop, h0, h1, h2]
    ·
      simp [grokCall, grokRetryLoop, h0, h1]
  ·
    simp [grokCall, grokRetryLoop, h0]

/-- C8: when the analysis service fails on every attempt (timeout,
non-200 status or transport error) or the API key is absent or empty,
`analyze_with_grok` returns exactly the fallback result of
`process_data_without_grok` (with the default `max_results = 20` in the
missing-key path). -/
theorem C8_fallback_on_total_failure (jsonLoads : String → Option (List GrokCompany))
    (apiKey : Option String) (oracle : Nat → AttemptOutcome)
    (data : List DataItem) (vendor : String) (maxResults : Nat)
    (hfail : ∀ i, i < 3 → ∀ s body, oracle i = AttemptOutcome.success s body → s ≠ 200)
    (_hne : data ≠ []) :
    analyzeWithGrok jsonLoads apiKey oracle data vendor maxResults
      = process_data_without_grok data vendor
          (if strFalsy apiKey then 20 else maxResults) := by
  unfold analyzeWithGrok
  by_cases hk : strFalsy apiKey = true
  · simp [hk]
  · have hk' : strFalsy apiKey = false := by
      revert hk
      cases strFalsy apiKey <;> simp
    rw [hk']
    simp only [Bool.false_eq_true, if_false]
    rw [grokCall_fallback_of_failures oracle hfail]

/-- Witness for `C8_fallback_on_total_failure`: an always-timing-out
service with a present API key falls back with the caller limit. -/
theorem C8_fallback_on_total_failure_witness :
    analyzeWithGrok (fun _ => none) (some ("key")) (fun _ => AttemptOutcome.timeout)
      [⟨some ("Globex"), some ("globex.com"), none, none⟩] ("Acme") 5
      = process_data_without_grok
          [⟨some ("Globex"), some ("globex.com"), none, none⟩] ("Acme")
          (if strFalsy (some ("key")) then 20 else 5) :=
  C8_fallback_on_total_failure (fun _ => none) (some ("key")) (fun _ => AttemptOutcome.timeout)
    [⟨some ("Globex"), some ("globex.com"), none, none⟩] ("Acme") 5
    (fun _ _ _ _ h => AttemptOutcome.noConfusion h) (by decide)

/-- C9 (amended): a 200 response on the first attempt makes
`analyze_with_grok` return exactly the parsed response, with no
substitution of the locally computed partial set. -/
theorem C9_returns_parse_on_success (jsonLoads : String → Option (List GrokCompany))
    (k : String) (oracle : Nat → AttemptOutcome)
    (data : List DataItem) (vendor : String) (maxResults : Nat) (body : String)
    (hk : k ≠ "") (h0 : oracle 0 = AttemptOutcome.success 200 body) :
    analyzeWithGrok jsonLoads (some k) oracle data vendor maxResults
      = parse_grok_response jsonLoads body vendor maxResults := by
  unfold analyzeWithGrok
  have hk' : strFalsy (some k) = false := by simp [strFalsy, hk]
  rw [hk']
  simp only [Bool.false_eq_true, if_false]
  have hg : (grokCall oracle).2 = RetryDisp.response 200 body := by
    simp [grokCall, grokRetryLoop, h0]
  rw [hg]
  simp

/-- Witness for `C9_returns_parse_on_success` at a concrete body. -/
theorem C9_returns_parse_on_success_witness :
    analyzeWithGrok (fun _ => none) (some ("key"))
      (fun _ => AttemptOutcome.success 200 ("Hooli, hooli.com"))
      [] ("Acme") 20
      = parse_grok_response (fun _ => none) ("Hooli, hooli.com") ("Acme") 20 :=
  C9_returns_parse_on_success (fun _ => none) ("key")
    (fun _ => AttemptOutcome.success 200 ("Hooli, hooli.com"))
    [] ("Acme") 20 ("Hooli, hooli.com") (by decide) rfl

/-- C9 counterexample: a successful (HTTP 200) response whose parse
yields zero usable records makes `analyze_with_grok` return the EMPTY
list even though the locally computed partial result set is non-empty —
no substitution of the partial set takes place, so the claim is
false. -/
theorem C9_no_partial_substitution_counterexample :
    analyzeWithGrok (fun _ => none) (some ("key"))
      (fun _ => AttemptOutcome.success 200 ("NO_COMPANIES_FOUND"))
      [⟨some ("Globex"), some ("globex.com"), none, none⟩] ("Acme") 20 = []
    ∧ analyzePartialResults
        [⟨some ("Globex"), some ("globex.com"), none, none⟩] ("Acme") ≠ [] := by
  constructor
  · decide
  · decide

/-- Witness for `C7_retry_ladder`: under an oracle that times out on
attempt 0 and answers 200 on attempt 1, the second attempt is made with
the longer timeout 80; an always-transport-error oracle ends in
fallback after exactly one attempt; an always-500 oracle ends in
fallback and retries after its first non-200 response. -/
theorem C7_retry_ladder_witness :
    (0 + 1, 40 * (0 + 2)) ∈ (grokCall (fun i =>
      if i = 0 then AttemptOutcome.timeout else AttemptOutcome.success 200 ("ok"))).1
    ∧ ((grokCall (fun _ => AttemptOutcome.transportError ("boom"))).2 = RetryDisp.fallback
      ∧ (grokCall (fun _ => AttemptOutcome.transportError ("boom"))).1.length = 0 + 1)
    ∧ (grokCall (fun _ => AttemptOutcome.success 500 (""))).2 = RetryDisp.fallback
    ∧ (0 + 1, 40 * (0 + 2)) ∈ (grokCall (fun _ => AttemptOutcome.success 500 (""))).1 :=
  ⟨(C7_retry_ladder (fun i =>
      if i = 0 then AttemptOutcome.timeout else AttemptOutcome.success 200 ("ok"))).2.2.1
      0 (by decide) (by decide) (by decide),
   (C7_retry_ladder (fun _ => AttemptOutcome.transportError ("boom"))).2.2.2.1
      0 ("boom") rfl (by decide),
   (C7_retry_ladder (fun _ => AttemptOutcome.success 500 (""))).2.2.2.2.1
      (fun _ _ => ⟨500, (""), rfl, by decide⟩),
   (C7_retry_ladder (fun _ => AttemptOutcome.success 500 (""))).2.2.2.2.2
      0 500 ("") rfl (by decide) (by decide) (by decide)⟩

end GrokAI
